import Mathlib

/-!
Shallow embedding of the balcony-calculator cost-estimation engine
(`functions/modules/calculateMaterials.js`) and proofs about it.

Modelling conventions:
* JavaScript numbers are modelled by `JNum`: the symbolic values `NaN`,
  `Infinity`, `-Infinity` plus exact rationals for finite values.  The
  engine's arithmetic (`+`, `*`, `/`, `Math.ceil`, comparisons,
  truthiness) is embedded with IEEE-754 symbolic behaviour on the special
  values and exact rational arithmetic on finite values.
* Missing (`undefined`) object fields are modelled with `Option` or with
  the `JAtom` universe of dynamically-typed field values.
* A thrown / rejected JS exception is a distinct outcome constructor; the
  top-level `try`/`catch` of `calculateMaterials` is embedded explicitly.
* The external material-catalog store (`getMaterial` / `getMaterials` of
  `materialsManager.js`) is a parameter (`Catalog`); each call can return
  a success object, a `{success:false}` object, or throw.  The `userId`
  argument of the store is used only for logging in the source and is
  omitted; `authToken` is threaded faithfully.
* The pagination loop of `fetchAllMaterials` is embedded with explicit
  fuel; `outOfFuel` marks the (non-terminating) run where every fetched
  page stays full forever.
-/

/-- Rational addition computed on numerator/denominator pairs (kernel
reducible, provably equal to `+` on `ℚ`). -/
def qAdd (a b : ℚ) : ℚ :=
  mkRat (a.num * (b.den : ℤ) + b.num * (a.den : ℤ)) (a.den * b.den)

/-- Rational multiplication computed on numerator/denominator pairs
(kernel reducible, provably equal to `*` on `ℚ`). -/
def qMul (a b : ℚ) : ℚ :=
  mkRat (a.num * b.num) (a.den * b.den)

/-- Rational division computed on numerator/denominator pairs (kernel
reducible, provably equal to `/` on `ℚ`, with `qDiv a 0 = 0`). -/
def qDiv (a b : ℚ) : ℚ :=
  let n := a.num * (b.den : ℤ)
  let d := (a.den : ℤ) * b.num
  if d < 0 then mkRat (-n) d.natAbs else mkRat n d.natAbs

/-- The floor of a rational, computed on its numerator and denominator
(provably equal to `⌊·⌋`). -/
def qFloor (q : ℚ) : ℤ := q.num / (q.den : ℤ)

/-- The ceiling of a rational, computed on its numerator and denominator
(provably equal to `⌈·⌉`). -/
def qCeil (q : ℚ) : ℤ := -((-q.num) / (q.den : ℤ))

/-- A JavaScript number: `NaN`, `±Infinity`, or a finite value (modelled
exactly as a rational). -/
inductive JNum where
  | nan : JNum
  | inf : JNum
  | ninf : JNum
  | fin : ℚ → JNum
deriving DecidableEq, Repr

namespace JNum

/-- `isNaN(x)`. -/
def isNaN : JNum → Bool
  | nan => true
  | _ => false

/-- JS truthiness of a number: `NaN` and `0` are falsy. -/
def truthy : JNum → Bool
  | nan => false
  | fin q => q ≠ 0
  | _ => true

/-- The JS comparison `x <= 0` (false on `NaN`). -/
def le0 : JNum → Bool
  | nan => false
  | inf => false
  | ninf => true
  | fin q => q ≤ 0

/-- JS addition. -/
def add : JNum → JNum → JNum
  | nan, _ => nan
  | _, nan => nan
  | inf, ninf => nan
  | ninf, inf => nan
  | inf, _ => inf
  | _, inf => inf
  | ninf, _ => ninf
  | _, ninf => ninf
  | fin a, fin b => fin (qAdd a b)

/-- JS multiplication (signed zeros conflated). -/
def mul : JNum → JNum → JNum
  | nan, _ => nan
  | _, nan => nan
  | inf, inf => inf
  | inf, ninf => ninf
  | ninf, inf => ninf
  | ninf, ninf => inf
  | inf, fin q => if 0 < q then inf else if q < 0 then ninf else nan
  | fin q, inf => if 0 < q then inf else if q < 0 then ninf else nan
  | ninf, fin q => if 0 < q then ninf else if q < 0 then inf else nan
  | fin q, ninf => if 0 < q then ninf else if q < 0 then inf else nan
  | fin a, fin b => fin (qMul a b)

/-- JS division (signed zeros conflated). -/
def div : JNum → JNum → JNum
  | nan, _ => nan
  | _, nan => nan
  | inf, inf => nan
  | inf, ninf => nan
  | ninf, inf => nan
  | ninf, ninf => nan
  | inf, fin q => if q < 0 then ninf else inf
  | ninf, fin q => if q < 0 then inf else ninf
  | fin _, inf => fin 0
  | fin _, ninf => fin 0
  | fin a, fin b =>
      if b = 0 then (if 0 < a then inf else if a < 0 then ninf else nan)
      else fin (qDiv a b)

/-- `Math.ceil`. -/
def ceil : JNum → JNum
  | nan => nan
  | inf => inf
  | ninf => ninf
  | fin q => fin ((qCeil q : ℤ) : ℚ)

end JNum

/-- Two-decimal formatting of a natural number interpreted as hundredths
(helper of `toFixed2`). -/
def fmtHundredths (m : ℕ) : String :=
  toString (m / 100) ++ "." ++
    (if m % 100 < 10 then "0" ++ toString (m % 100) else toString (m % 100))

/-- `Number.prototype.toFixed(2)`: nearest hundredth, ties to the larger
candidate, special values spelled out. -/
def toFixed2 : JNum → String
  | JNum.nan => "NaN"
  | JNum.inf => "Infinity"
  | JNum.ninf => "-Infinity"
  | JNum.fin q =>
      let n : ℤ := qFloor (qAdd (qMul q 100) (mkRat 1 2))
      if n < 0 then "-" ++ fmtHundredths (-n).toNat else fmtHundredths n.toNat

/-- The `dimensions` field of a catalog material (each sub-field may be
absent). -/
structure Dimensions where
  length : Option JNum := none
  width : Option JNum := none
  height : Option JNum := none
deriving DecidableEq, Repr

/-- A catalog material record as consumed by the engine.  `none` models
an absent (`undefined`) field. -/
structure Material where
  id : String := ""
  name : String := ""
  price : Option JNum := none
  unit : Option String := none
  dimensions : Option Dimensions := none
  quantity : Option JNum := none
  isHidden : Bool := false
deriving DecidableEq, Repr

/-- JS truthiness of a possibly-absent number field. -/
def jnumTruthy : Option JNum → Bool
  | none => false
  | some v => v.truthy

/-- JS truthiness of a possibly-absent string field. -/
def jstrTruthy : Option String → Bool
  | none => false
  | some s => s ≠ ""

/-- `parseFloat(x) || 0` on a possibly-absent number field
(`parseFloat(undefined)` is `NaN`, which the `|| 0` maps to `0`). -/
def parseFloatOr0 : Option JNum → JNum
  | none => JNum.fin 0
  | some JNum.nan => JNum.fin 0
  | some v => v

/-- Normalised dimensions produced by `normalizeDimensions`. -/
structure NormDims where
  length : JNum
  width : JNum
  height : JNum
deriving DecidableEq, Repr

/-- `normalizeDimensions(dimensions, materialName)`: absent or partially
falsy dimensions collapse to all-zero; otherwise each component is
`parseFloat(...) || 0`. -/
def normalizeDimensions : Option Dimensions → NormDims
  | none => ⟨JNum.fin 0, JNum.fin 0, JNum.fin 0⟩
  | some d =>
      if jnumTruthy d.length && jnumTruthy d.width then
        ⟨parseFloatOr0 d.length, parseFloatOr0 d.width, parseFloatOr0 d.height⟩
      else ⟨JNum.fin 0, JNum.fin 0, JNum.fin 0⟩

/-- Reply of one store call: the `{success:true, ...}` object, the
`{success:false, error}` object (error field may be absent), or a thrown
error / rejected promise. -/
inductive StoreReply (α : Type) where
  | ok : α → StoreReply α
  | notOk : Option String → StoreReply α
  | raise : String → StoreReply α
deriving DecidableEq, Repr

/-- The external material-catalog store.  Arguments follow the source
call sites: `getMaterial(id, authToken)` and
`getMaterials(category, page, itemsPerPage, authToken)`. -/
structure Catalog where
  getMaterial : String → String → StoreReply Material
  getMaterials : String → ℕ → ℕ → String → StoreReply (List Material)

/-- Outcome of `fetchAllMaterials`: the concatenated pages together with
the number of page requests issued, a thrown error, or non-termination
(fuel exhausted while pages keep coming back full). -/
inductive FetchAll where
  | ok : List Material → ℕ → FetchAll
  | thrown : String → FetchAll
  | outOfFuel : FetchAll
deriving DecidableEq, Repr

/-- `result.error || fallback` (an absent or empty error string falls
back to the generic message). -/
def errorOr (e : Option String) (fallback : String) : String :=
  match e with
  | none => fallback
  | some s => if s = "" then fallback else s

/-- The pagination loop of `fetchAllMaterials`: request page after page,
concatenating, while each page comes back with exactly `itemsPerPage`
items; a failed page is rethrown as `Error(result.error || ...)`. -/
def fetchAllMaterialsAux (cat : Catalog) (category : String) (itemsPerPage : ℕ)
    (authToken : String) : ℕ → ℕ → FetchAll
  | 0, _ => FetchAll.outOfFuel
  | fuel + 1, page =>
      match cat.getMaterials category page itemsPerPage authToken with
      | StoreReply.raise m => FetchAll.thrown m
      | StoreReply.notOk e =>
          FetchAll.thrown
            (errorOr e ("Failed to load materials for category \"" ++ category ++ "\""))
      | StoreReply.ok materials =>
          if materials.length = itemsPerPage then
            match fetchAllMaterialsAux cat category itemsPerPage authToken fuel (page + 1) with
            | FetchAll.ok rest n => FetchAll.ok (materials ++ rest) (n + 1)
            | other => other
          else FetchAll.ok materials 1

/-- `fetchAllMaterials(category, itemsPerPage, authToken, userId)`. -/
def fetchAllMaterials (cat : Catalog) (category : String) (itemsPerPage : ℕ)
    (authToken : String) (fuel : ℕ) : FetchAll :=
  fetchAllMaterialsAux cat category itemsPerPage authToken fuel 0

/-- A dynamically-typed field of the request's `data` object:
`undefined`, a number, a string, or some other value carrying only its
truthiness (objects, booleans, ...). -/
inductive JAtom where
  | undef : JAtom
  | num : JNum → JAtom
  | str : String → JAtom
  | obj : Bool → JAtom
deriving DecidableEq, Repr

/-- JS truthiness of a `JAtom`. -/
def JAtom.truthy : JAtom → Bool
  | JAtom.undef => false
  | JAtom.num n => n.truthy
  | JAtom.str s => s ≠ ""
  | JAtom.obj b => b

/-- One entry of the `extraMaterials` array (a JS object whose two
relevant properties may hold anything). -/
structure ExtraEntry where
  materialKey : JAtom := JAtom.undef
  quantity : JAtom := JAtom.undef
deriving DecidableEq, Repr

/-- An element of the `extraMaterials` array: an object, or a nullish
value (destructuring a nullish element throws). -/
inductive JEntry where
  | entry : ExtraEntry → JEntry
  | nullish : JEntry
deriving DecidableEq, Repr

/-- The `extraMaterials` field of `data`: absent, an array, or some
non-array value carrying only its truthiness. -/
inductive JArrVal where
  | undef : JArrVal
  | arr : List JEntry → JArrVal
  | notArray : Bool → JArrVal
deriving DecidableEq, Repr

/-- JS truthiness of the `extraMaterials` value (arrays are always
truthy, even when empty). -/
def JArrVal.truthy : JArrVal → Bool
  | JArrVal.undef => false
  | JArrVal.arr _ => true
  | JArrVal.notArray b => b

/-- A computed quantity as stored in a line item: several handlers store
the raw number, others store the `toFixed(2)` string. -/
inductive JsVal where
  | num : JNum → JsVal
  | str : String → JsVal
deriving DecidableEq, Repr

/-- One line item of a calculation result. -/
structure LineItem where
  material : String
  quantity : JsVal
  unit : String
  cost : String
  hidden : Bool
deriving DecidableEq, Repr

/-- The per-request mutable state of the rule engine: the `results`
array and the running `totalCost`. -/
structure CalcState where
  results : List LineItem
  totalCost : JNum
deriving DecidableEq, Repr

namespace CONFIG

/-- `WASTE_FACTOR: 1.1`. -/
def WASTE_FACTOR : ℚ := mkRat 11 10

/-- `RAIL_WASTE_FACTOR: 1.05`. -/
def RAIL_WASTE_FACTOR : ℚ := mkRat 21 20

/-- `RAIL_STEP: 0.5` (metres). -/
def RAIL_STEP : ℚ := mkRat 1 2

/-- `RAIL_DEFAULT_LENGTH: 3000` (millimetres). -/
def RAIL_DEFAULT_LENGTH : ℚ := 3000

/-- `PAINT_COVERAGE: 10` (square metres per unit). -/
def PAINT_COVERAGE : ℚ := 10

/-- `ITEMS_PER_PAGE: 100`. -/
def ITEMS_PER_PAGE : ℕ := 100

end CONFIG

/-- The price value of a material whose `price` passed the truthiness
check (the default is never reached on guarded paths). -/
def priceVal (p : Option JNum) : JNum := p.getD JNum.nan

/-- `material.unit || default`. -/
def unitOr (u : Option String) (d : String) : String :=
  if jstrTruthy u then u.getD "" else d

/-- First `:`-segment of a composite material key
(`materialKey.split(':')[0]`): the characters before the first colon. -/
def keyHead (s : String) : String :=
  String.mk (s.toList.takeWhile (fun c => c ≠ ':'))

/-- JS whitespace (the characters relevant to the trimming check). -/
def isJsWhitespace (c : Char) : Bool :=
  c = ' ' || c = '\t' || c = '\n' || c = '\r'

/-- `s.trim()` (both-ends whitespace strip). -/
def jsTrim (s : String) : String :=
  String.mk (((s.toList.dropWhile isJsWhitespace).reverse.dropWhile isJsWhitespace).reverse)

/-- Validation of one `extraMaterials` entry, exactly as coded:
`materialKey` must be a truthy string that is non-empty after trimming,
and `quantity` must be a number that is neither `NaN` nor `<= 0`
(note: `+Infinity` passes this check). -/
def extraEntryValid (e : ExtraEntry) : Bool :=
  (match e.materialKey with
   | JAtom.str s => s ≠ "" && jsTrim s ≠ ""
   | _ => false) &&
  (match e.quantity with
   | JAtom.num n => ¬ n.isNaN && ¬ n.le0
   | _ => false)

/-- Outcome of the extra-materials overlay: the overlay's own
`extraResults` list and `totalCost`, or a thrown error.  (In the source
the overlay additionally pushes each non-hidden entry into the caller's
`results` array as it goes; callers are modelled as re-assembling that
interleaving from the returned list, which preserves order.) -/
inductive ExtraOutcome where
  | ok : List LineItem → JNum → ExtraOutcome
  | thrown : String → ExtraOutcome
deriving DecidableEq, Repr

/-- The entry loop of `processExtraMaterials`, with the accumulated
`extraResults` and `totalCost` threaded left-to-right as in the source. -/
def processExtraEntries (cat : Catalog) (authToken : String) :
    List JEntry → List LineItem → JNum → ExtraOutcome
  | [], acc, tc => ExtraOutcome.ok acc tc
  | JEntry.nullish :: _, _, _ =>
      ExtraOutcome.thrown "Cannot destructure property 'materialKey' of 'extra' as it is null."
  | JEntry.entry e :: rest, acc, tc =>
      if extraEntryValid e then
        match e.materialKey, e.quantity with
        | JAtom.str s, JAtom.num n =>
            match cat.getMaterial (keyHead s) authToken with
            | StoreReply.raise m => ExtraOutcome.thrown m
            | StoreReply.notOk _ => processExtraEntries cat authToken rest acc tc
            | StoreReply.ok material =>
                if jnumTruthy material.price && jstrTruthy material.unit then
                  let extraCost := n.mul (priceVal material.price)
                  let resultEntry : LineItem :=
                    ⟨material.name, JsVal.str (toFixed2 n), material.unit.getD "",
                      toFixed2 extraCost, material.isHidden⟩
                  processExtraEntries cat authToken rest (acc ++ [resultEntry]) (tc.add extraCost)
                else processExtraEntries cat authToken rest acc tc
        | _, _ => processExtraEntries cat authToken rest acc tc
      else processExtraEntries cat authToken rest acc tc

/-- `processExtraMaterials(extraMaterials, results, authToken, userId)`:
a non-array input yields `{totalCost: 0, results: []}` immediately. -/
def processExtraMaterials (cat : Catalog) (extraMaterials : JArrVal)
    (authToken : String) : ExtraOutcome :=
  match extraMaterials with
  | JArrVal.arr entries => processExtraEntries cat authToken entries [] (JNum.fin 0)
  | _ => ExtraOutcome.ok [] (JNum.fin 0)

/-- A caller's merge of the overlay result: non-hidden entries were
pushed into `results` during the overlay loop, then the caller appends
the hidden ones (`results.push(...extraResult.results.filter(r => r.hidden))`). -/
def mergeExtras (st : CalcState) (extras : List LineItem) (tc : JNum) : CalcState :=
  { results :=
      st.results ++ extras.filter (fun r => !r.hidden) ++ extras.filter (fun r => r.hidden),
    totalCost := st.totalCost.add tc }

/-- The request's `data` object: every field any handler destructures,
each dynamically typed; an absent field is `undefined`. -/
structure TabData where
  length : JAtom := JAtom.undef
  width : JAtom := JAtom.undef
  finishType : JAtom := JAtom.undef
  insulationType : JAtom := JAtom.undef
  wallPainting : JAtom := JAtom.undef
  ceilingPainting : JAtom := JAtom.undef
  extraMaterials : JArrVal := JArrVal.undef
  entryListToggle : JAtom := JAtom.undef
  entryFastenersToggle : JAtom := JAtom.undef
  entryTilingToggle : JAtom := JAtom.undef
  glazingType : JAtom := JAtom.undef
  frameType : JAtom := JAtom.undef
  exteriorFinish : JAtom := JAtom.undef
  balconyBlock : JAtom := JAtom.undef
  windowType : JAtom := JAtom.undef
  windowSlopes : JAtom := JAtom.undef
  sillType : JAtom := JAtom.undef
  roofType : JAtom := JAtom.undef
  windowQuantity : JAtom := JAtom.undef
  cableType : JAtom := JAtom.undef
  cableQuantity : JAtom := JAtom.undef
  switchType : JAtom := JAtom.undef
  switchQuantity : JAtom := JAtom.undef
  socketType : JAtom := JAtom.undef
  socketQuantity : JAtom := JAtom.undef
  spotType : JAtom := JAtom.undef
  spotQuantity : JAtom := JAtom.undef
  furnitureMaterial : JAtom := JAtom.undef
  furniturePainting : JAtom := JAtom.undef
  shelfTopMaterial : JAtom := JAtom.undef
  shelfTopQuantity : JAtom := JAtom.undef
  shelfBottomMaterial : JAtom := JAtom.undef
  shelfBottomQuantity : JAtom := JAtom.undef
  stoveSide : JAtom := JAtom.undef
  countertop : JAtom := JAtom.undef
deriving Repr

/-- The shared room-dimension validation: the field must hold a number
that is neither `NaN` nor `<= 0`. -/
def validRoomDim (a : JAtom) : Bool :=
  match a with
  | JAtom.num n => ¬ n.isNaN && ¬ n.le0
  | _ => false

/-- The shared material-reference validation: a truthy string. -/
def validRef (a : JAtom) : Bool :=
  match a with
  | JAtom.str s => s ≠ ""
  | _ => false

/-- The number held by a validated numeric field. -/
def atomNum (a : JAtom) : JNum :=
  match a with
  | JAtom.num n => n
  | _ => JNum.nan

/-- `value.split(':')[0]` on a validated reference field. -/
def refId (a : JAtom) : String :=
  match a with
  | JAtom.str s => keyHead s
  | _ => ""

/-- Outcome of one tab handler: resolved normally (the source handlers
end without a `return`, so they resolve `undefined`), returned a
`{success:false, error}` object, threw, or exhausted pagination fuel. -/
inductive HandlerOutcome where
  | completed : CalcState → HandlerOutcome
  | failed : Option String → HandlerOutcome
  | thrown : String → HandlerOutcome
  | outOfFuel : HandlerOutcome
deriving DecidableEq, Repr

/-- Intermediate outcome of one sequential step inside a handler. -/
inductive StepOut where
  | next : CalcState → StepOut
  | thrown : String → StepOut
  | outOfFuel : StepOut
deriving DecidableEq, Repr

/-- The hidden-materials (rail) loop of the wall/ceiling/floor handlers.
`roomLength` and `roomHeight` are the raw request values (millimetres);
the loop divides them by `RAIL_STEP` (metres) and by the rail length
(converted to metres) exactly as coded. -/
def processHiddenRails (roomLength roomHeight : JNum) :
    List Material → CalcState → CalcState
  | [], st => st
  | m :: rest, st =>
      if jnumTruthy m.price then
        let hiddenDimensions := normalizeDimensions m.dimensions
        let railLength :=
          (if hiddenDimensions.length.truthy then hiddenDimensions.length
           else JNum.fin CONFIG.RAIL_DEFAULT_LENGTH).div (JNum.fin 1000)
        let horizontalCount := (roomLength.div (JNum.fin CONFIG.RAIL_STEP)).ceil
        let verticalCount := (roomHeight.div railLength).ceil
        let railQuantity :=
          (horizontalCount.mul verticalCount).mul (JNum.fin CONFIG.RAIL_WASTE_FACTOR)
        let railCost := railQuantity.mul (priceVal m.price)
        processHiddenRails roomLength roomHeight rest
          { results := st.results ++
              [⟨m.name, JsVal.str (toFixed2 railQuantity), unitOr m.unit "шт.",
                toFixed2 railCost, true⟩],
            totalCost := st.totalCost.add railCost }
      else processHiddenRails roomLength roomHeight rest st

/-- The wall/ceiling paint loop: area-based paint coverage for every
priced material of the painting category. -/
def processPaintMaterials (roomLength roomHeight : JNum) :
    List Material → CalcState → CalcState
  | [], st => st
  | m :: rest, st =>
      if jnumTruthy m.price then
        let paintArea := (roomLength.mul roomHeight).div (JNum.fin 1000000)
        let paintQuantity := paintArea.div (JNum.fin CONFIG.PAINT_COVERAGE) |>.ceil
        let paintCost := paintQuantity.mul (priceVal m.price)
        processPaintMaterials roomLength roomHeight rest
          { results := st.results ++
              [⟨m.name, JsVal.num paintQuantity, unitOr m.unit "л.",
                toFixed2 paintCost, false⟩],
            totalCost := st.totalCost.add paintCost }
      else processPaintMaterials roomLength roomHeight rest st

/-- The insulation step of the wall/ceiling/floor handlers: a resolvable
insulation reference with truthy price and unit contributes an
area-coverage line item whose material-area denominator silently falls
back to `1` when the computed area is falsy; every failure short of a
thrown error is skipped with a warning. -/
def processInsulation (cat : Catalog) (insulationType : JAtom)
    (roomLength roomHeight : JNum) (authToken : String) (st : CalcState) : StepOut :=
  match insulationType with
  | JAtom.str s =>
      if s = "" then StepOut.next st
      else
        match cat.getMaterial (keyHead s) authToken with
        | StoreReply.raise m => StepOut.thrown m
        | StoreReply.notOk _ => StepOut.next st
        | StoreReply.ok insulationMaterial =>
            if jnumTruthy insulationMaterial.price && jstrTruthy insulationMaterial.unit then
              let insulationDimensions := normalizeDimensions insulationMaterial.dimensions
              let insulationArea := (roomLength.mul roomHeight).div (JNum.fin 1000000)
              let computedArea :=
                (insulationDimensions.length.mul insulationDimensions.width).div
                  (JNum.fin 1000000)
              let insulationMatArea := if computedArea.truthy then computedArea else JNum.fin 1
              let insulationQuantity :=
                ((insulationArea.div insulationMatArea).mul
                  (JNum.fin CONFIG.WASTE_FACTOR)).ceil
              let insulationCost := insulationQuantity.mul (priceVal insulationMaterial.price)
              StepOut.next
                { results := st.results ++
                    [⟨insulationMaterial.name, JsVal.num insulationQuantity,
                      insulationMaterial.unit.getD "", toFixed2 insulationCost, false⟩],
                  totalCost := st.totalCost.add insulationCost }
            else StepOut.next st
  | _ => StepOut.next st

/-- Finishing step shared by every handler: run the extra-materials
overlay when `data.extraMaterials` is truthy and merge its result. -/
def extrasFinish (cat : Catalog) (authToken : String) (extraMaterials : JArrVal)
    (st : CalcState) : HandlerOutcome :=
  if extraMaterials.truthy then
    match processExtraMaterials cat extraMaterials authToken with
    | ExtraOutcome.thrown m => HandlerOutcome.thrown m
    | ExtraOutcome.ok extras tc => HandlerOutcome.completed (mergeExtras st extras tc)
  else HandlerOutcome.completed st

/-- The shared handler body of the six wall/ceiling/floor tabs
(`Главная стена`, `Фасадная стена`, `БЛ стена`, `БП стена`, `Потолок`,
`Полы`); the six source handlers are verbatim duplicates except for the
painting flag field and painting category (`Полы` has no painting
step, modelled by `paintCategoryTail = none`). -/
def wallHandler (cat : Catalog) (tabName : String) (data : TabData)
    (paintingFlag : JAtom) (paintCategoryTail : Option String)
    (authToken : String) (fuel : ℕ) : HandlerOutcome :=
  if ¬ (validRoomDim data.length && validRoomDim data.width && validRef data.finishType) then
    HandlerOutcome.failed (some "Некорректные размеры или тип отделки")
  else
    match cat.getMaterial (refId data.finishType) authToken with
    | StoreReply.raise m => HandlerOutcome.thrown m
    | StoreReply.notOk e => HandlerOutcome.failed e
    | StoreReply.ok visibleMaterial =>
        if ¬ (jnumTruthy visibleMaterial.price && jstrTruthy visibleMaterial.unit) then
          HandlerOutcome.failed (some "У материала отсутствует цена или единица измерения")
        else
          let dims := normalizeDimensions visibleMaterial.dimensions
          if dims.length.le0 || dims.width.le0 then
            HandlerOutcome.failed
              (some ("Недопустимые размеры материала \"" ++ visibleMaterial.name ++ "\""))
          else
            let len := atomNum data.length
            let hgt := atomNum data.width
            let area := (len.mul hgt).div (JNum.fin 1000000)
            let materialArea := (dims.length.mul dims.width).div (JNum.fin 1000000)
            let visibleQuantity :=
              ((area.div materialArea).mul (JNum.fin CONFIG.WASTE_FACTOR)).ceil
            let visibleCost := visibleQuantity.mul (priceVal visibleMaterial.price)
            let st0 : CalcState :=
              { results :=
                  [⟨visibleMaterial.name, JsVal.num visibleQuantity,
                    visibleMaterial.unit.getD "", toFixed2 visibleCost, false⟩],
                totalCost := (JNum.fin 0).add visibleCost }
            match fetchAllMaterials cat (tabName ++ ":Скрытые") CONFIG.ITEMS_PER_PAGE
                authToken fuel with
            | FetchAll.thrown m => HandlerOutcome.thrown m
            | FetchAll.outOfFuel => HandlerOutcome.outOfFuel
            | FetchAll.ok hiddenMaterials _ =>
                let st1 := processHiddenRails len hgt hiddenMaterials st0
                match processInsulation cat data.insulationType len hgt authToken st1 with
                | StepOut.thrown m => HandlerOutcome.thrown m
                | StepOut.outOfFuel => HandlerOutcome.outOfFuel
                | StepOut.next st2 =>
                    let paintStep : StepOut :=
                      match paintCategoryTail with
                      | none => StepOut.next st2
                      | some tail =>
                          if paintingFlag = JAtom.str "yes" then
                            match fetchAllMaterials cat (tabName ++ ":" ++ tail)
                                CONFIG.ITEMS_PER_PAGE authToken fuel with
                            | FetchAll.thrown m => StepOut.thrown m
                            | FetchAll.outOfFuel => StepOut.outOfFuel
                            | FetchAll.ok paintMaterials _ =>
                                StepOut.next (processPaintMaterials len hgt paintMaterials st2)
                          else StepOut.next st2
                    match paintStep with
                    | StepOut.thrown m => HandlerOutcome.thrown m
                    | StepOut.outOfFuel => HandlerOutcome.outOfFuel
                    | StepOut.next st3 => extrasFinish cat authToken data.extraMaterials st3

/-- The category loop shared by `На заезд` and the `Мебель` toggle
items: quantity defaults to the material's catalog `quantity` field when
truthy, else `1`; materials flagged `isHidden` are costed but not pushed
into `results`. -/
def processCategoryMaterials : List Material → CalcState → CalcState
  | [], st => st
  | m :: rest, st =>
      if jnumTruthy m.price then
        let quantity := if jnumTruthy m.quantity then m.quantity.getD (JNum.fin 0)
          else JNum.fin 1
        let materialCost := quantity.mul (priceVal m.price)
        let resultEntry : LineItem :=
          ⟨m.name, JsVal.str (toFixed2 quantity), unitOr m.unit "шт.",
            toFixed2 materialCost, m.isHidden⟩
        processCategoryMaterials rest
          { results := st.results ++ (if m.isHidden then [] else [resultEntry]),
            totalCost := st.totalCost.add materialCost }
      else processCategoryMaterials rest st

/-- One toggle-driven category fetch (`toggle === 'yes'` fetches the
whole category and feeds it to the category loop). -/
def entryToggleStep (cat : Catalog) (authToken : String) (fuel : ℕ)
    (toggle : JAtom) (category : String) (st : CalcState) : StepOut :=
  if toggle = JAtom.str "yes" then
    match fetchAllMaterials cat category CONFIG.ITEMS_PER_PAGE authToken fuel with
    | FetchAll.thrown m => StepOut.thrown m
    | FetchAll.outOfFuel => StepOut.outOfFuel
    | FetchAll.ok materials _ => StepOut.next (processCategoryMaterials materials st)
  else StepOut.next st

/-- Sequential processing of a list of toggle/category pairs. -/
def entryToggleLoop (cat : Catalog) (authToken : String) (fuel : ℕ) :
    List (JAtom × String) → CalcState → StepOut
  | [], st => StepOut.next st
  | (toggle, category) :: rest, st =>
      match entryToggleStep cat authToken fuel toggle category st with
      | StepOut.next st1 => entryToggleLoop cat authToken fuel rest st1
      | out => out

/-- Whether a field holds a string value (of any content). -/
def isStrAtom : JAtom → Bool
  | JAtom.str _ => true
  | _ => false

/-- Handler of the `На заезд` tab. -/
def entryHandler (cat : Catalog) (data : TabData) (authToken : String)
    (fuel : ℕ) : HandlerOutcome :=
  if ¬ (isStrAtom data.entryListToggle && isStrAtom data.entryFastenersToggle &&
        isStrAtom data.entryTilingToggle) then
    HandlerOutcome.failed (some "Некорректные данные для вкладки \"На заезд\"")
  else
    match entryToggleLoop cat authToken fuel
        [(data.entryListToggle, "На заезд:Список на заезд"),
         (data.entryFastenersToggle, "На заезд:Крепеж"),
         (data.entryTilingToggle, "На заезд:Плиточные работы")]
        ⟨[], JNum.fin 0⟩ with
    | StepOut.thrown m => HandlerOutcome.thrown m
    | StepOut.outOfFuel => HandlerOutcome.outOfFuel
    | StepOut.next st => extrasFinish cat authToken data.extraMaterials st

/-- Display conversion used by template literals on dynamic values
(only the string case is exercised on reachable claim paths). -/
def jatomDisplay : JAtom → String
  | JAtom.str s => s
  | JAtom.num n => toFixed2 n
  | JAtom.undef => "undefined"
  | JAtom.obj _ => "[object Object]"

/-- The five admissible window variants of the glazing tab. -/
def validVariants : List String :=
  ["Балкон 3м.", "Балкон 6м.", "Лоджия 3м.", "Лоджия 6м.", "Окно 1.5м. кирпич"]

/-- The per-window hidden-materials loop of the glazing tab: each priced
hidden material is costed at `windowQuantity` units and pushed with the
structural `hidden: true` flag. -/
def glazingHiddenLoop (windowQuantity : JNum) : List Material → CalcState → CalcState
  | [], st => st
  | m :: rest, st =>
      if jnumTruthy m.price then
        let hiddenCost := windowQuantity.mul (priceVal m.price)
        glazingHiddenLoop windowQuantity rest
          { results := st.results ++
              [⟨m.name, JsVal.str (toFixed2 windowQuantity), unitOr m.unit "шт.",
                toFixed2 hiddenCost, true⟩],
            totalCost := st.totalCost.add hiddenCost }
      else glazingHiddenLoop windowQuantity rest st

/-- Processing of one resolved glazing option id: lookup, price/unit
gate, costing (window options cost `windowQuantity` units, the rest `1`),
isHidden-aware push, and for the window option the variant-specific
hidden-materials fetch. -/
def glazingProcessId (cat : Catalog) (authToken : String) (fuel : ℕ)
    (windowQuantity : JNum) (isWindow : Bool) (hiddenCategory : String)
    (materialId : String) (st : CalcState) : StepOut :=
  match cat.getMaterial materialId authToken with
  | StoreReply.raise m => StepOut.thrown m
  | StoreReply.notOk _ => StepOut.next st
  | StoreReply.ok material =>
      if jnumTruthy material.price && jstrTruthy material.unit then
        let quantity := if isWindow then windowQuantity else JNum.fin 1
        let cost := quantity.mul (priceVal material.price)
        let resultEntry : LineItem :=
          ⟨material.name, JsVal.str (toFixed2 quantity), material.unit.getD "",
            toFixed2 cost, material.isHidden⟩
        let st1 : CalcState :=
          { results := st.results ++ (if material.isHidden then [] else [resultEntry]),
            totalCost := st.totalCost.add cost }
        if isWindow then
          match fetchAllMaterials cat hiddenCategory CONFIG.ITEMS_PER_PAGE authToken fuel with
          | FetchAll.thrown m => StepOut.thrown m
          | FetchAll.outOfFuel => StepOut.outOfFuel
          | FetchAll.ok hiddenMaterials _ =>
              StepOut.next (glazingHiddenLoop windowQuantity hiddenMaterials st1)
        else StepOut.next st1
      else StepOut.next st

/-- The glazing option loop: every truthy option other than `'no'` is
resolved (the window option by fetch-all plus name match, the others by
splitting the composite key) and processed. -/
def glazingLoop (cat : Catalog) (authToken : String) (fuel : ℕ)
    (windowQuantity : JNum) : List (JAtom × String) → CalcState → StepOut
  | [], st => StepOut.next st
  | (value, category) :: rest, st =>
      if value.truthy && ¬ (value = JAtom.str "no") then
        let step : StepOut :=
          if category = "Остекление:Окно" then
            match fetchAllMaterials cat category CONFIG.ITEMS_PER_PAGE authToken fuel with
            | FetchAll.thrown m => StepOut.thrown m
            | FetchAll.outOfFuel => StepOut.outOfFuel
            | FetchAll.ok materials _ =>
                match materials.find? (fun mat => JAtom.str mat.name = value) with
                | none => StepOut.next st
                | some windowMaterial =>
                    glazingProcessId cat authToken fuel windowQuantity true
                      (category ++ ":" ++ jatomDisplay value ++ ":Скрытые")
                      windowMaterial.id st
          else
            match value with
            | JAtom.str s =>
                glazingProcessId cat authToken fuel windowQuantity false "" (keyHead s) st
            | _ => StepOut.thrown "value.split is not a function"
        match step with
        | StepOut.next st1 => glazingLoop cat authToken fuel windowQuantity rest st1
        | out => out
      else glazingLoop cat authToken fuel windowQuantity rest st

/-- Handler of the `Остекление` tab. -/
def glazingHandler (cat : Catalog) (data : TabData) (authToken : String)
    (fuel : ℕ) : HandlerOutcome :=
  if ¬ (data.windowType.truthy && validRoomDim data.windowQuantity) then
    HandlerOutcome.failed
      (some "Некорректные данные для вкладки \"Остекление\": требуется windowType и windowQuantity")
  else
    if ¬ ((match data.windowType with
          | JAtom.str s => validVariants.contains s
          | _ => false) : Bool) then
      HandlerOutcome.failed
        (some ("Недопустимый вариант окна: " ++ jatomDisplay data.windowType))
    else
      match glazingLoop cat authToken fuel (atomNum data.windowQuantity)
          [(data.glazingType, "Остекление:Что делаем"),
           (data.frameType, "Остекление:Основная рама"),
           (data.exteriorFinish, "Остекление:Наружная отделка"),
           (data.balconyBlock, "Остекление:Замена балконного блока"),
           (data.windowType, "Остекление:Окно"),
           (data.windowSlopes, "Остекление:Откосы для окон"),
           (data.sillType, "Остекление:Подоконники"),
           (data.roofType, "Остекление:Крыша")]
          ⟨[], JNum.fin 0⟩ with
      | StepOut.thrown m => HandlerOutcome.thrown m
      | StepOut.outOfFuel => HandlerOutcome.outOfFuel
      | StepOut.next st => extrasFinish cat authToken data.extraMaterials st

/-- The fixed-quantity item loop shared by `Электрика` and the `Мебель`
material items: a truthy type reference together with a positive numeric
quantity is resolved and costed at `quantity * price`. -/
def fixedItemsLoop (cat : Catalog) (authToken : String) :
    List (JAtom × JAtom) → CalcState → StepOut
  | [], st => StepOut.next st
  | (ty, qty) :: rest, st =>
      if ty.truthy && validRoomDim qty then
        match ty with
        | JAtom.str s =>
            match cat.getMaterial (keyHead s) authToken with
            | StoreReply.raise m => StepOut.thrown m
            | StoreReply.notOk _ => fixedItemsLoop cat authToken rest st
            | StoreReply.ok material =>
                if jnumTruthy material.price && jstrTruthy material.unit then
                  let q := atomNum qty
                  let cost := q.mul (priceVal material.price)
                  let resultEntry : LineItem :=
                    ⟨material.name, JsVal.str (toFixed2 q), material.unit.getD "",
                      toFixed2 cost, material.isHidden⟩
                  fixedItemsLoop cat authToken rest
                    { results := st.results ++
                        (if material.isHidden then [] else [resultEntry]),
                      totalCost := st.totalCost.add cost }
                else fixedItemsLoop cat authToken rest st
        | _ => StepOut.thrown "item.type.split is not a function"
      else fixedItemsLoop cat authToken rest st

/-- Handler of the `Электрика` tab. -/
def electricHandler (cat : Catalog) (data : TabData) (authToken : String) : HandlerOutcome :=
  match fixedItemsLoop cat authToken
      [(data.cableType, data.cableQuantity),
       (data.switchType, data.switchQuantity),
       (data.socketType, data.socketQuantity),
       (data.spotType, data.spotQuantity)]
      ⟨[], JNum.fin 0⟩ with
  | StepOut.thrown m => HandlerOutcome.thrown m
  | StepOut.outOfFuel => HandlerOutcome.outOfFuel
  | StepOut.next st => extrasFinish cat authToken data.extraMaterials st

/-- The furniture painting loop: one unit of every priced material of
the furniture-paint category. -/
def furniturePaintLoop : List Material → CalcState → CalcState
  | [], st => st
  | m :: rest, st =>
      if jnumTruthy m.price then
        let paintQuantity := JNum.fin 1
        let paintCost := paintQuantity.mul (priceVal m.price)
        furniturePaintLoop rest
          { results := st.results ++
              [⟨m.name, JsVal.num paintQuantity, unitOr m.unit "л.",
                toFixed2 paintCost, false⟩],
            totalCost := st.totalCost.add paintCost }
      else furniturePaintLoop rest st

/-- Handler of the `Мебель` tab. -/
def furnitureHandler (cat : Catalog) (data : TabData) (authToken : String)
    (fuel : ℕ) : HandlerOutcome :=
  match fixedItemsLoop cat authToken
      [(data.furnitureMaterial, JAtom.num (JNum.fin 1)),
       (data.shelfTopMaterial, data.shelfTopQuantity),
       (data.shelfBottomMaterial, data.shelfBottomQuantity)]
      ⟨[], JNum.fin 0⟩ with
  | StepOut.thrown m => HandlerOutcome.thrown m
  | StepOut.outOfFuel => HandlerOutcome.outOfFuel
  | StepOut.next st1 =>
      let paintStep : StepOut :=
        if data.furniturePainting = JAtom.str "yes" then
          match fetchAllMaterials cat "Мебель:Покраска мебели" CONFIG.ITEMS_PER_PAGE
              authToken fuel with
          | FetchAll.thrown m => StepOut.thrown m
          | FetchAll.outOfFuel => StepOut.outOfFuel
          | FetchAll.ok paintMaterials _ => StepOut.next (furniturePaintLoop paintMaterials st1)
        else StepOut.next st1
      match paintStep with
      | StepOut.thrown m => HandlerOutcome.thrown m
      | StepOut.outOfFuel => HandlerOutcome.outOfFuel
      | StepOut.next st2 =>
          match entryToggleLoop cat authToken fuel
              [(data.stoveSide, "Мебель:Бок у печки"),
               (data.countertop, "Мебель:Столешница")] st2 with
          | StepOut.thrown m => HandlerOutcome.thrown m
          | StepOut.outOfFuel => HandlerOutcome.outOfFuel
          | StepOut.next st3 => extrasFinish cat authToken data.extraMaterials st3

/-- Handler of the `Доп. параметр` tab: a missing, non-array or empty
`extraMaterials` is rejected, otherwise the tab is exactly the overlay. -/
def extraTabHandler (cat : Catalog) (data : TabData) (authToken : String) : HandlerOutcome :=
  match data.extraMaterials with
  | JArrVal.arr entries =>
      if entries.isEmpty then
        HandlerOutcome.failed
          (some "Некорректные данные для вкладки \"Доп. параметр\": требуется непустой массив extraMaterials")
      else
        match processExtraMaterials cat data.extraMaterials authToken with
        | ExtraOutcome.thrown m => HandlerOutcome.thrown m
        | ExtraOutcome.ok extras tc =>
            HandlerOutcome.completed (mergeExtras ⟨[], JNum.fin 0⟩ extras tc)
  | _ =>
      HandlerOutcome.failed
        (some "Некорректные данные для вкладки \"Доп. параметр\": требуется непустой массив extraMaterials")

/-- A plain JavaScript value with which the dispatcher can resolve when
`tabName` names an inherited `Object.prototype` member instead of an own
handler key: a string, a boolean, the fresh empty object returned by
`Object()`, or the `tabHandlers` object itself (from `valueOf`).  None of
these carries a `success` property. -/
inductive JsRet where
  | undef : JsRet
  | str : String → JsRet
  | bool : Bool → JsRet
  | emptyObj : JsRet
  | handlersObj : JsRet
deriving DecidableEq, Repr

deriving instance DecidableEq for Except

/-- `tabHandlers[tabName]` is plain bracket access on an object literal,
so for a name that is not one of the eleven own keys the lookup continues
into `Object.prototype`.  Every inherited member is truthy, passes the
`if (tabHandlers[tabName])` guard and is invoked as
`tabHandlers[tabName]()` — a method call with `this = tabHandlers` and no
arguments.  `some (Except.ok v)` models a call resolving the value `v`,
`some (Except.error m)` a call that throws, and `none` a name that is not
an inherited member (the lookup yields `undefined`, which is falsy, so
the unsupported-tab branch runs).  Per member: `toString` (and
`toLocaleString`, which delegates to it) on a plain object without
`Symbol.toStringTag` returns `'[object Object]'`; `constructor` is
`Object`, which called with no argument returns a new empty object;
`valueOf` returns `this`; `hasOwnProperty` and `propertyIsEnumerable`
coerce the missing argument to the key `'undefined'`, which is not an own
property, and `isPrototypeOf` gets a non-object argument — all three
return `false`; `__lookupGetter__`/`__lookupSetter__` find no accessor
for the key `'undefined'` and return `undefined`;
`__defineGetter__`/`__defineSetter__` throw because the missing
getter/setter argument is not a function; `__proto__` reads as
`Object.prototype`, which is truthy but not callable, so the call itself
throws. -/
def protoInvoke (tabName : String) : Option (Except String JsRet) :=
  if tabName = "toString" ∨ tabName = "toLocaleString" then
    some (Except.ok (JsRet.str "[object Object]"))
  else if tabName = "constructor" then
    some (Except.ok JsRet.emptyObj)
  else if tabName = "valueOf" then
    some (Except.ok JsRet.handlersObj)
  else if tabName = "hasOwnProperty" ∨ tabName = "isPrototypeOf" ∨
      tabName = "propertyIsEnumerable" then
    some (Except.ok (JsRet.bool false))
  else if tabName = "__lookupGetter__" ∨ tabName = "__lookupSetter__" then
    some (Except.ok JsRet.undef)
  else if tabName = "__defineGetter__" then
    some (Except.error "Getter must be a function: undefined")
  else if tabName = "__defineSetter__" then
    some (Except.error "Setter must be a function: undefined")
  else if tabName = "__proto__" then
    some (Except.error "tabHandlers[tabName] is not a function")
  else none

/-- Outcome of `if (tabHandlers[tabName]) { ... } else { ... }`: an own
handler ran, an inherited `Object.prototype` member was invoked
(resolving a plain value or throwing), or the lookup was `undefined` and
the unsupported-tab branch ran. -/
inductive DispatchOut where
  | ran : HandlerOutcome → DispatchOut
  | proto : Except String JsRet → DispatchOut
  | unsupported : DispatchOut
deriving DecidableEq, Repr

/-- The `tabHandlers` dispatch: the eleven own keys run their handlers;
any other name falls through the bracket lookup to `Object.prototype`
(`protoInvoke`), and only a name that is inherited neither is reported
unsupported. -/
def dispatchTab (cat : Catalog) (tabName : String) (data : TabData)
    (authToken : String) (fuel : ℕ) : DispatchOut :=
  if tabName = "Главная стена" then
    DispatchOut.ran (wallHandler cat tabName data data.wallPainting (some "Покраска стен") authToken fuel)
  else if tabName = "Фасадная стена" then
    DispatchOut.ran (wallHandler cat tabName data data.wallPainting (some "Покраска стен") authToken fuel)
  else if tabName = "БЛ стена" then
    DispatchOut.ran (wallHandler cat tabName data data.wallPainting (some "Покраска стен") authToken fuel)
  else if tabName = "БП стена" then
    DispatchOut.ran (wallHandler cat tabName data data.wallPainting (some "Покраска стен") authToken fuel)
  else if tabName = "Потолок" then
    DispatchOut.ran (wallHandler cat tabName data data.ceilingPainting (some "Покраска потолка") authToken fuel)
  else if tabName = "Полы" then
    DispatchOut.ran (wallHandler cat tabName data JAtom.undef none authToken fuel)
  else if tabName = "На заезд" then
    DispatchOut.ran (entryHandler cat data authToken fuel)
  else if tabName = "Остекление" then
    DispatchOut.ran (glazingHandler cat data authToken fuel)
  else if tabName = "Электрика" then
    DispatchOut.ran (electricHandler cat data authToken)
  else if tabName = "Мебель" then
    DispatchOut.ran (furnitureHandler cat data authToken fuel)
  else if tabName = "Доп. параметр" then
    DispatchOut.ran (extraTabHandler cat data authToken)
  else
    match protoInvoke tabName with
    | some out => DispatchOut.proto out
    | none => DispatchOut.unsupported

/-- A calculation request as consumed by `calculateMaterials`:
the authorization header (absent or a string) and the `tabName`/`data`
pair of the body.  `data = none` covers an absent or non-object value
(both fail the same validation); `userId` is only logged and omitted. -/
structure CalcRequest where
  authorization : Option String := none
  tabName : JAtom := JAtom.undef
  data : Option TabData := none

/-- A calculation result object: `{success:true, results, totalCost}` or
`{success:false, error}` (the error property may be absent). -/
inductive CalcResult where
  | success : List LineItem → String → CalcResult
  | failure : Option String → CalcResult

/-- Outcome of the `try` body of `calculateMaterials`: a returned result
object, a returned plain non-result value (`return result` in the
`!result.success` branch after an inherited `Object.prototype` member was
invoked), a thrown error, or fuel exhaustion. -/
inductive BodyOutcome where
  | returned : CalcResult → BodyOutcome
  | returnedRaw : JsRet → BodyOutcome
  | thrown : String → BodyOutcome
  | outOfFuel : BodyOutcome

/-- The `try` body of `calculateMaterials`: header/body validation,
dispatch, and the post-call `if (!result.success) { return result; }`
check.  The own handlers resolve `undefined` on their success paths, so
that check dereferences `undefined` and throws a `TypeError`; an invoked
inherited `Object.prototype` member resolves a plain value whose
`success` property is `undefined`, so the check returns that raw value
(or, for a resolved `undefined`, throws the same `TypeError`). -/
def calculateMaterialsBody (cat : Catalog) (req : CalcRequest) (fuel : ℕ) : BodyOutcome :=
  let authToken := req.authorization.getD ""
  if authToken = "" then
    BodyOutcome.returned (CalcResult.failure (some "authToken is required and must be a string"))
  else
    match req.tabName, req.data with
    | JAtom.str tn, some data =>
        if tn = "" then
          BodyOutcome.returned (CalcResult.failure
            (some "tabName и data обязательны и должны быть строкой и объектом соответственно"))
        else
          match dispatchTab cat tn data authToken fuel with
          | DispatchOut.ran (HandlerOutcome.completed _) =>
              BodyOutcome.thrown "Cannot read properties of undefined (reading 'success')"
          | DispatchOut.ran (HandlerOutcome.failed e) =>
              BodyOutcome.returned (CalcResult.failure e)
          | DispatchOut.ran (HandlerOutcome.thrown m) => BodyOutcome.thrown m
          | DispatchOut.ran HandlerOutcome.outOfFuel => BodyOutcome.outOfFuel
          | DispatchOut.proto (Except.error m) => BodyOutcome.thrown m
          | DispatchOut.proto (Except.ok JsRet.undef) =>
              BodyOutcome.thrown "Cannot read properties of undefined (reading 'success')"
          | DispatchOut.proto (Except.ok v) => BodyOutcome.returnedRaw v
          | DispatchOut.unsupported =>
              BodyOutcome.returned (CalcResult.failure
                (some ("Расчет для вкладки \"" ++ tn ++ "\" пока не реализован")))
    | _, _ =>
        BodyOutcome.returned (CalcResult.failure
          (some "tabName и data обязательны и должны быть строкой и объектом соответственно"))

/-- Result of a whole run: a returned result object, a returned plain
non-result JavaScript value, or non-termination of a pagination loop. -/
inductive RunResult where
  | terminated : CalcResult → RunResult
  | terminatedRaw : JsRet → RunResult
  | diverged : RunResult

/-- `true` exactly when a run resolved with a result object
(`{success:true, ...}` or `{success:false, ...}`). -/
def isResultObject : RunResult → Bool
  | RunResult.terminated _ => true
  | _ => false

/-- `calculateMaterials(req)`: the `try` body wrapped in the `catch`
that converts any thrown error into
`{success:false, error: error.message || String(error)}`; a `return`
(of a result object or of a raw value) passes through the catch
untouched. -/
def calculateMaterials (cat : Catalog) (req : CalcRequest) (fuel : ℕ) : RunResult :=
  match calculateMaterialsBody cat req fuel with
  | BodyOutcome.returned r => RunResult.terminated r
  | BodyOutcome.returnedRaw v => RunResult.terminatedRaw v
  | BodyOutcome.thrown m =>
      RunResult.terminated (CalcResult.failure (some (if m = "" then "Error" else m)))
  | BodyOutcome.outOfFuel => RunResult.diverged

deriving instance DecidableEq for CalcResult

deriving instance DecidableEq for RunResult

deriving instance DecidableEq for BodyOutcome

/-- A visible finish material: priced, with a unit and 600×300 mm
dimensions. -/
def matFinish : Material :=
  { id := "m1", name := "Панель ПВХ", price := some (JNum.fin 450), unit := some "шт.",
    dimensions := some { length := some (JNum.fin 600), width := some (JNum.fin 300) } }

/-- A hidden batten/rail material: priced, with no declared dimensions
(so the default rail length applies). -/
def matRail : Material :=
  { id := "m2", name := "Рейка", price := some (JNum.fin 50) }

/-- A catalog-hidden material (`isHidden = true`) with price and unit. -/
def matHiddenGlue : Material :=
  { id := "m3", name := "Клей", price := some (JNum.fin 200), unit := some "шт.",
    isHidden := true }

/-- A priced material with unit and no dimensions (used as an extra). -/
def matCable : Material :=
  { id := "m4", name := "Кабель", price := some (JNum.fin 150), unit := some "м." }

/-- A priced material with unit whose dimensions are missing, so its
normalised length and width are zero. -/
def matZeroDims : Material :=
  { id := "m5", name := "Краска", price := some (JNum.fin 90), unit := some "л." }

/-- An insulation material with price and unit but no dimensions. -/
def matInsulation : Material :=
  { id := "m6", name := "Утеплитель", price := some (JNum.fin 120), unit := some "шт." }

/-- A catalog with the finish, insulation and (for the hidden wall
category) rail materials. -/
def catMain : Catalog :=
  { getMaterial := fun id _ =>
      if id = "m1" then StoreReply.ok matFinish
      else if id = "m6" then StoreReply.ok matInsulation
      else StoreReply.notOk (some "Material not found"),
    getMaterials := fun c _ _ _ =>
      if c = "Главная стена:Скрытые" then StoreReply.ok [matRail]
      else StoreReply.ok [] }

/-- A catalog whose category listings are all empty. -/
def catNoHidden : Catalog :=
  { getMaterial := fun id _ =>
      if id = "m1" then StoreReply.ok matFinish
      else if id = "m5" then StoreReply.ok matZeroDims
      else if id = "m6" then StoreReply.ok matInsulation
      else StoreReply.notOk (some "Material not found"),
    getMaterials := fun _ _ _ _ => StoreReply.ok [] }

/-- A catalog holding only the catalog-hidden glue material. -/
def catGlue : Catalog :=
  { getMaterial := fun id _ =>
      if id = "m3" then StoreReply.ok matHiddenGlue
      else StoreReply.notOk (some "Material not found"),
    getMaterials := fun _ _ _ _ => StoreReply.ok [] }

/-- A catalog holding only the cable material. -/
def catCable : Catalog :=
  { getMaterial := fun id _ =>
      if id = "m4" then StoreReply.ok matCable
      else StoreReply.notOk (some "Material not found"),
    getMaterials := fun _ _ _ _ => StoreReply.ok [] }

/-- A catalog whose listings fail with a fixed store error. -/
def catFailList : Catalog :=
  { getMaterial := fun id _ =>
      if id = "m1" then StoreReply.ok matFinish
      else StoreReply.notOk (some "Material not found"),
    getMaterials := fun _ _ _ _ => StoreReply.notOk (some "Firestore unavailable") }

/-- A two-page catalog: page 0 holds exactly two materials, page 1 is
empty. -/
def catPages : Catalog :=
  { getMaterial := fun _ _ => StoreReply.notOk (some "Material not found"),
    getMaterials := fun _ page _ _ =>
      if page = 0 then StoreReply.ok [matRail, matCable] else StoreReply.ok [] }

/-- Request data of a 3000×2500 mm main-wall calculation. -/
def wallData : TabData :=
  { length := JAtom.num (JNum.fin 3000), width := JAtom.num (JNum.fin 2500),
    finishType := JAtom.str "m1:Главная стена:Панель ПВХ" }


/-- Main-wall request data whose finish reference resolves to the
dimensionless `matZeroDims` material. -/
def wallDataZero : TabData :=
  { length := JAtom.num (JNum.fin 3000), width := JAtom.num (JNum.fin 2500),
    finishType := JAtom.str "m5:Главная стена:Краска" }

/-- Main-wall request data with an insulation selection resolving to the
dimensionless `matInsulation` material. -/
def wallDataIns : TabData :=
  { length := JAtom.num (JNum.fin 3000), width := JAtom.num (JNum.fin 2500),
    finishType := JAtom.str "m1:Главная стена:Панель ПВХ",
    insulationType := JAtom.str "m6:Главная стена:Утеплитель" }

/-- Whether the overlay keeps an `extraMaterials` element: object
entries passing the coded validation, and nullish elements (which throw
rather than being dropped). -/
def jentryKept : JEntry → Bool
  | JEntry.entry e => extraEntryValid e
  | JEntry.nullish => true

/-- The quantity a category-loop line uses: the catalog `quantity`
field when truthy, else `1`. -/
def categoryQuantity (m : Material) : JNum :=
  if jnumTruthy m.quantity then m.quantity.getD (JNum.fin 0) else JNum.fin 1

/-- The cost a category-loop line contributes. -/
def categoryCost (m : Material) : JNum := (categoryQuantity m).mul (priceVal m.price)

/-- The response the entry point produces once dispatch selected a
handler with the given outcome: a returned failure object passes
through; a normally-resolved handler makes `if (!result.success)`
dereference `undefined`, and the resulting `TypeError` is caught and
returned as a failure; a thrown error is caught the same way. -/
def handlerToRun : HandlerOutcome → RunResult
  | HandlerOutcome.completed _ =>
      RunResult.terminated (CalcResult.failure
        (some "Cannot read properties of undefined (reading 'success')"))
  | HandlerOutcome.failed e => RunResult.terminated (CalcResult.failure e)
  | HandlerOutcome.thrown m =>
      RunResult.terminated (CalcResult.failure (some (if m = "" then "Error" else m)))
  | HandlerOutcome.outOfFuel => RunResult.diverged

/-- Numerator identity used by the rational bridge lemmas. -/
lemma ratNum_eq_mul_den (a : ℚ) : (a.num : ℚ) = a * a.den := by
  have ha : (a.den : ℚ) ≠ 0 := Nat.cast_ne_zero.mpr a.den_nz
  exact (div_eq_iff ha).mp (Rat.num_div_den a)

/-- `qAdd` agrees with rational addition. -/
lemma qAdd_eq (a b : ℚ) : qAdd a b = a + b := by
  have ha : (a.den : ℚ) ≠ 0 := Nat.cast_ne_zero.mpr a.den_nz
  have hb : (b.den : ℚ) ≠ 0 := Nat.cast_ne_zero.mpr b.den_nz
  rw [qAdd, Rat.mkRat_eq_div]
  push_cast
  rw [div_eq_iff (mul_ne_zero ha hb), ratNum_eq_mul_den a, ratNum_eq_mul_den b]
  ring

/-- `qMul` agrees with rational multiplication. -/
lemma qMul_eq (a b : ℚ) : qMul a b = a * b := by
  rw [qMul, Rat.mkRat_eq_div]
  push_cast
  rw [← div_mul_div_comm, Rat.num_div_den, Rat.num_div_den]

/-- `qDiv` agrees with rational division. -/
lemma qDiv_eq (a b : ℚ) : qDiv a b = a / b := by
  rcases eq_or_ne b 0 with hb | hb
  · subst hb
    rw [qDiv]
    norm_num [Rat.mkRat_eq_div]
  · have hbn : b.num ≠ 0 := fun h => hb (Rat.num_eq_zero.mp h)
    have ha : (a.den : ℚ) ≠ 0 := Nat.cast_ne_zero.mpr a.den_nz
    have hbnq : (b.num : ℚ) ≠ 0 := Int.cast_ne_zero.mpr hbn
    have key : ((a.num * (b.den:ℤ) : ℤ) : ℚ) / (((a.den : ℤ) * b.num : ℤ) : ℚ) = a / b := by
      push_cast
      rw [div_eq_div_iff (mul_ne_zero ha hbnq) hb]
      rw [ratNum_eq_mul_den a, ratNum_eq_mul_den b]
      ring
    rw [qDiv]
    rcases lt_trichotomy ((a.den : ℤ) * b.num) 0 with hd | hd | hd
    · rw [if_pos hd, Rat.mkRat_eq_div]
      rw [← key]
      push_cast [Int.cast_natAbs]
      rw [abs_of_neg (by exact_mod_cast hd)]
      rw [neg_div_neg_eq]
    · exact absurd hd (mul_ne_zero (Int.natCast_ne_zero.mpr a.den_nz) hbn)
    · rw [if_neg (not_lt.mpr hd.le), Rat.mkRat_eq_div]
      rw [← key]
      push_cast [Int.cast_natAbs]
      rw [abs_of_pos (by exact_mod_cast hd)]

/-- `qFloor` agrees with the rational floor. -/
lemma qFloor_eq (q : ℚ) : qFloor q = ⌊q⌋ := by
  rw [qFloor, Rat.floor_def]

/-- `qCeil` agrees with the rational ceiling. -/
lemma qCeil_eq (q : ℚ) : qCeil q = ⌈q⌉ := by
  have h : ⌊-q⌋ = -⌈q⌉ := Int.floor_neg
  have h2 : ⌊-q⌋ = (-q).num / ((-q).den : ℤ) := Rat.floor_def
  rw [Rat.neg_num, Rat.neg_den] at h2
  rw [qCeil]
  omega

/-- Finite JS multiplication computes the rational product. -/
lemma jnum_mul_fin (a b : ℚ) : (JNum.fin a).mul (JNum.fin b) = JNum.fin (a * b) := by
  simp [JNum.mul, qMul_eq]

/-- Finite JS addition computes the rational sum. -/
lemma jnum_add_fin (a b : ℚ) : (JNum.fin a).add (JNum.fin b) = JNum.fin (a + b) := by
  simp [JNum.add, qAdd_eq]

/-- Finite JS division by a non-zero value computes the rational
quotient. -/
lemma jnum_div_fin (a b : ℚ) (hb : b ≠ 0) :
    (JNum.fin a).div (JNum.fin b) = JNum.fin (a / b) := by
  simp [JNum.div, hb, qDiv_eq]

/-- `Math.ceil` of a finite JS number is the rational ceiling. -/
lemma jnum_ceil_fin (q : ℚ) : (JNum.fin q).ceil = JNum.fin (⌈q⌉ : ℚ) := by
  simp [JNum.ceil, qCeil_eq]

/-- A positive room-dimension field passes the shared validation. -/
lemma validRoomDim_fin_pos {q : ℚ} (h : 0 < q) :
    validRoomDim (JAtom.num (JNum.fin q)) = true := by
  simp [validRoomDim, JNum.isNaN, JNum.le0, not_le.mpr h]

/-- A finite positive JS number is not `<= 0`. -/
lemma jnum_le0_fin_pos {q : ℚ} (h : 0 < q) : (JNum.fin q).le0 = false := by
  simp [JNum.le0, not_le.mpr h]

/-- A non-zero finite number field is truthy. -/
lemma jnumTruthy_fin {q : ℚ} (h : q ≠ 0) : jnumTruthy (some (JNum.fin q)) = true := by
  simp [jnumTruthy, JNum.truthy, h]

/-- A non-empty unit string is truthy. -/
lemma jstrTruthy_some {s : String} (h : s ≠ "") : jstrTruthy (some s) = true := by
  simp [jstrTruthy, h]

/-- `parseFloat` keeps a finite number field. -/
lemma parseFloatOr0_fin (q : ℚ) : parseFloatOr0 (some (JNum.fin q)) = JNum.fin q := rfl

/-- Normalisation of a dimensions object with two non-zero finite
components. -/
lemma normalizeDimensions_fins {ml mw : ℚ} (dh : Option JNum)
    (hml : ml ≠ 0) (hmw : mw ≠ 0) :
    normalizeDimensions (some ⟨some (JNum.fin ml), some (JNum.fin mw), dh⟩) =
      ⟨JNum.fin ml, JNum.fin mw, parseFloatOr0 dh⟩ := by
  simp [normalizeDimensions, jnumTruthy, JNum.truthy, hml, hmw]
  exact ⟨rfl, rfl⟩

/-- A fetch-all whose first page is already short stops after one
request. -/
lemma fetchAllMaterials_short {cat : Catalog} {c tok : String} {n : ℕ}
    {ms : List Material} {fuel : ℕ}
    (h0 : cat.getMaterials c 0 n tok = StoreReply.ok ms)
    (hlen : ms.length ≠ n) (hf : fuel ≠ 0) :
    fetchAllMaterials cat c n tok fuel = FetchAll.ok ms 1 := by
  cases fuel with
  | zero => exact absurd rfl hf
  | succ f => simp [fetchAllMaterials, fetchAllMaterialsAux, h0, hlen]

/-- The rail loop does nothing on an empty hidden-material list. -/
lemma processHiddenRails_nil (l h : JNum) (st : CalcState) :
    processHiddenRails l h [] st = st := rfl

/-- The insulation step skips an absent `insulationType`. -/
lemma processInsulation_undef (cat : Catalog) (l h : JNum) (tok : String)
    (st : CalcState) :
    processInsulation cat JAtom.undef l h tok st = StepOut.next st := rfl

/-- The extras finisher is the identity on an absent `extraMaterials`. -/
lemma extrasFinish_undef (cat : Catalog) (tok : String) (st : CalcState) :
    extrasFinish cat tok JArrVal.undef st = HandlerOutcome.completed st := rfl

/-- Claim C1 (code bug): for a 3000×2500 mm main-wall request and a
priced hidden rail material with no usable declared length, the engine
computes a rail quantity of `ceil(3000 / 0.5) * ceil(2500 / 3) * 1.05 =
5254200` — the raw millimetre room dimensions are divided by the
metre-based `RAIL_STEP` and rail length without unit conversion — not
the claimed `ceil(3.0 / 0.5) * ceil(2.5 / 3.0) * 1.05 = 6.3`. -/
theorem c1_rail_quantity_not_unit_converted :
    wallHandler catMain "Главная стена" wallData JAtom.undef (some "Покраска стен") "t" 2 =
      HandlerOutcome.completed
        { results :=
            [⟨"Панель ПВХ", JsVal.num (JNum.fin 46), "шт.", "20700.00", false⟩,
             ⟨"Рейка", JsVal.str "5254200.00", "шт.", "262710000.00", true⟩],
          totalCost := JNum.fin 262730700 } ∧
    JsVal.str "5254200.00" ≠ JsVal.str "6.30" := by
  exact ⟨by decide, by decide⟩

/-- Claim C3 counterexample: a `Доп. параметр` calculation resolving an
extra material whose catalog `isHidden` flag is true produces a results
array that CONTAINS that line item (flagged `hidden: true`), because
every handler re-appends the overlay's hidden entries
(`results.push(...extraResult.results.filter(r => r.hidden))`). -/
theorem c3_counterexample :
    extraTabHandler catGlue
        { extraMaterials := JArrVal.arr
            [JEntry.entry
              { materialKey := JAtom.str "m3:Доп:Клей", quantity := JAtom.num (JNum.fin 2) }] }
        "t" =
      HandlerOutcome.completed
        { results := [⟨"Клей", JsVal.str "2.00", "шт.", "400.00", true⟩],
          totalCost := JNum.fin 400 } ∧
    matHiddenGlue.isHidden = true := by
  exact ⟨by decide, by decide⟩

/-- Claim C6 counterexample: an extra-materials entry with
`quantity = Infinity` — not a positive finite number — is NOT dropped:
the code only checks `typeof`, `isNaN` and `<= 0`, so the entry resolves,
appears in the overlay result and contributes an infinite cost. -/
theorem c6_counterexample :
    processExtraMaterials catCable
        (JArrVal.arr
          [JEntry.entry
            { materialKey := JAtom.str "m4:Электрика:Кабель", quantity := JAtom.num JNum.inf }])
        "t" =
      ExtraOutcome.ok [⟨"Кабель", JsVal.str "Infinity", "м.", "Infinity", false⟩] JNum.inf ∧
    ExtraOutcome.ok [(⟨"Кабель", JsVal.str "Infinity", "м.", "Infinity", false⟩ : LineItem)]
        JNum.inf ≠ ExtraOutcome.ok [] (JNum.fin 0) := by
  exact ⟨by decide, by decide⟩

/-- Claim C9 counterexample: two requests identical except for the
caller-supplied credential string produce different results even though
the catalog responses are identical — the empty credential is rejected
up front, so the core does branch on the credential value. -/
theorem c9_counterexample :
    calculateMaterials catMain
        { authorization := some "", tabName := JAtom.str "Подвал", data := some {} } 1 =
      RunResult.terminated
        (CalcResult.failure (some "authToken is required and must be a string")) ∧
    calculateMaterials catMain
        { authorization := some "x", tabName := JAtom.str "Подвал", data := some {} } 1 =
      RunResult.terminated
        (CalcResult.failure (some "Расчет для вкладки \"Подвал\" пока не реализован")) ∧
    calculateMaterials catMain
        { authorization := some "", tabName := JAtom.str "Подвал", data := some {} } 1 ≠
      calculateMaterials catMain
        { authorization := some "x", tabName := JAtom.str "Подвал", data := some {} } 1 := by
  exact ⟨by decide, by decide, by decide⟩

/-- Claim C2 (confirmed): in a wall/ceiling/floor tab computation with
valid room dimensions whose primary finish material resolves with a
price, a unit and positive normalised dimensions, the visible line item
has quantity `ceil((roomArea / materialArea) * 1.10)` with both areas in
square metres (mm² divided by 1,000,000); stated for a run with no
hidden/paint materials, no insulation and no extras. -/
theorem c2_visible_quantity_area_coverage
    (cat : Catalog) (tabName : String) (data : TabData) (paintingFlag : JAtom)
    (tail : Option String) (tok : String) (fuel : ℕ)
    (L H ml mw p : ℚ) (u : String) (dh : Option JNum) (vm : Material)
    (hL : 0 < L) (hH : 0 < H)
    (hlen : data.length = JAtom.num (JNum.fin L))
    (hwid : data.width = JAtom.num (JNum.fin H))
    (hfin : validRef data.finishType = true)
    (hins : data.insulationType = JAtom.undef)
    (hextras : data.extraMaterials = JArrVal.undef)
    (hpf : paintingFlag = JAtom.undef)
    (hget : cat.getMaterial (refId data.finishType) tok = StoreReply.ok vm)
    (hp : vm.price = some (JNum.fin p)) (hp0 : p ≠ 0)
    (hu : vm.unit = some u) (hu0 : u ≠ "")
    (hdim : vm.dimensions = some ⟨some (JNum.fin ml), some (JNum.fin mw), dh⟩)
    (hml : 0 < ml) (hmw : 0 < mw)
    (hlist : ∀ c page n, cat.getMaterials c page n tok = StoreReply.ok [])
    (hfuel : fuel ≠ 0) :
    wallHandler cat tabName data paintingFlag tail tok fuel =
      HandlerOutcome.completed
        { results := [⟨vm.name,
            JsVal.num (JNum.fin (⌈L * H / 1000000 / (ml * mw / 1000000) * (11/10 : ℚ)⌉ : ℚ)),
            u,
            toFixed2 (JNum.fin ((⌈L * H / 1000000 / (ml * mw / 1000000) * (11/10 : ℚ)⌉ : ℚ) * p)),
            false⟩],
          totalCost :=
            JNum.fin ((⌈L * H / 1000000 / (ml * mw / 1000000) * (11/10 : ℚ)⌉ : ℚ) * p) } := by
  have h1M : (1000000 : ℚ) ≠ 0 := by norm_num
  have hML : ml * mw / 1000000 ≠ 0 := by positivity
  have hWF : CONFIG.WASTE_FACTOR = (11/10 : ℚ) := by
    rw [CONFIG.WASTE_FACTOR, Rat.mkRat_eq_div]; norm_num
  have hfa : fetchAllMaterials cat (tabName ++ ":Скрытые") CONFIG.ITEMS_PER_PAGE tok fuel =
      FetchAll.ok [] 1 :=
    fetchAllMaterials_short (hlist _ 0 _) (by norm_num [CONFIG.ITEMS_PER_PAGE]) hfuel
  have e1 : (JNum.fin (L * H)).div (JNum.fin 1000000) =
      JNum.fin (L * H / 1000000) := jnum_div_fin _ _ h1M
  have e2 : (JNum.fin (ml * mw)).div (JNum.fin 1000000) =
      JNum.fin (ml * mw / 1000000) := jnum_div_fin _ _ h1M
  have e3 : (JNum.fin (L * H / 1000000)).div (JNum.fin (ml * mw / 1000000)) =
      JNum.fin (L * H / 1000000 / (ml * mw / 1000000)) := jnum_div_fin _ _ hML
  rcases tail with _ | t <;>
    simp only [wallHandler, hlen, hwid, hfin, hins, hextras, hpf, hget, hp, hu, hdim,
      validRoomDim_fin_pos hL, validRoomDim_fin_pos hH,
      jnumTruthy_fin hp0, jstrTruthy_some hu0,
      normalizeDimensions_fins dh (ne_of_gt hml) (ne_of_gt hmw),
      jnum_le0_fin_pos hml, jnum_le0_fin_pos hmw,
      atomNum, priceVal, Option.getD,
      hfa, processHiddenRails_nil, processInsulation_undef, extrasFinish_undef,
      e1, e2, e3, jnum_mul_fin, jnum_ceil_fin, jnum_add_fin, hWF,
      Bool.and_true, Bool.true_and, Bool.and_self, Bool.not_true, Bool.or_self,
      if_false, if_true, reduceCtorEq, zero_add] <;>
    norm_num

/-- Claim C2 witness: the 3000×2500 mm room with a 600×300 mm finish
material yields a visible quantity of 46. -/
theorem c2_visible_quantity_area_coverage_witness :
    (0 : ℚ) < 3000 ∧
    wallHandler catNoHidden "Главная стена" wallData JAtom.undef (some "Покраска стен") "t" 1 =
      HandlerOutcome.completed
        { results := [⟨"Панель ПВХ", JsVal.num (JNum.fin 46), "шт.", "20700.00", false⟩],
          totalCost := JNum.fin 20700 } := by
  refine ⟨by norm_num, ?_⟩
  have h := c2_visible_quantity_area_coverage catNoHidden "Главная стена" wallData JAtom.undef
    (some "Покраска стен") "t" 1 3000 2500 600 300 450 "шт." none matFinish
    (by norm_num) (by norm_num) rfl rfl (by decide) rfl rfl rfl (by decide)
    rfl (by norm_num) rfl (by decide) rfl (by norm_num) (by norm_num)
    (fun _ _ _ => rfl) (by decide)
  rw [h]
  norm_num
  rw [show (⌈(275/6 : ℚ)⌉ : ℤ) = 46 from by norm_num [Int.ceil_eq_iff]]
  norm_num
  decide

/-- Pagination unrolling of the fetch-all loop: with every page up to
the first short page delivered successfully, the loop returns the
concatenation of pages `0..k` in order using `k + 1` requests. -/
lemma fetchAllAux_spec (cat : Catalog) (c tok : String) (n : ℕ)
    (pages : ℕ → List Material) :
    ∀ (k start fuel : ℕ),
      (∀ i, i ≤ k → cat.getMaterials c (start + i) n tok = StoreReply.ok (pages (start + i))) →
      (∀ i, i < k → (pages (start + i)).length = n) →
      (pages (start + k)).length < n →
      k < fuel →
      fetchAllMaterialsAux cat c n tok fuel start =
        FetchAll.ok (((List.range (k + 1)).map (fun i => pages (start + i))).flatten) (k + 1)
  | 0, start, fuel, hok, _, hshort, hfuel => by
      cases fuel with
      | zero => omega
      | succ f =>
          have h0 := hok 0 (le_refl 0)
          simp only [Nat.add_zero] at h0 hshort
          simp [fetchAllMaterialsAux, h0, Nat.ne_of_lt hshort, List.range_succ]
  | (k + 1), start, fuel, hok, hfull, hshort, hfuel => by
      cases fuel with
      | zero => omega
      | succ f =>
          have h0 := hok 0 (Nat.zero_le _)
          simp only [Nat.add_zero] at h0
          have hlen0 : (pages start).length = n := by
            have := hfull 0 (Nat.succ_pos k)
            simpa using this
          have ih := fetchAllAux_spec cat c tok n pages k (start + 1) f
            (fun i hi => by
              have := hok (i + 1) (by omega)
              simpa [Nat.add_assoc, Nat.add_comm 1 i] using this)
            (fun i hi => by
              have := hfull (i + 1) (by omega)
              simpa [Nat.add_assoc, Nat.add_comm 1 i] using this)
            (by
              have := hshort
              simpa [Nat.add_assoc, Nat.add_comm 1 k] using this)
            (by omega)
          simp only [fetchAllMaterialsAux, h0, hlen0, eq_self_iff_true, if_true, ih]
          conv_rhs => rw [List.range_succ_eq_map]
          simp only [List.map_cons, List.map_map, List.flatten_cons, Nat.add_zero,
            Function.comp_def, FetchAll.ok.injEq, and_true]
          have hmap : List.map (fun i => pages (start + 1 + i)) (List.range (k + 1)) =
              List.map (fun x => pages (start + x.succ)) (List.range (k + 1)) := by
            apply List.map_congr_left
            intro i _
            congr 1
            omega
          rw [hmap]

/-- Claim C4 (confirmed): fetch-all requests pages `0, 1, 2, ...` of the
requested page size and returns the concatenation of all page contents
in page order, stopping immediately after the first page whose item
count is strictly less than the page size, having issued exactly `k + 1`
page requests when page `k` is the first short page. -/
theorem c4_fetch_all_pagination (cat : Catalog) (c tok : String) (n : ℕ)
    (pages : ℕ → List Material) (k fuel : ℕ)
    (hok : ∀ i, i ≤ k → cat.getMaterials c i n tok = StoreReply.ok (pages i))
    (hfull : ∀ i, i < k → (pages i).length = n)
    (hshort : (pages k).length < n)
    (hfuel : k < fuel) :
    fetchAllMaterials cat c n tok fuel =
      FetchAll.ok (((List.range (k + 1)).map pages).flatten) (k + 1) := by
  have h := fetchAllAux_spec cat c tok n pages k 0 fuel
    (fun i hi => by simpa using hok i hi)
    (fun i hi => by simpa using hfull i hi)
    (by simpa using hshort)
    hfuel
  simpa [fetchAllMaterials] using h

/-- Claim C4 witness: a category with exactly `pageSize = 2` items on
page 0 and 0 items on page 1 returns exactly those items after exactly 2
page requests. -/
theorem c4_fetch_all_pagination_witness :
    (1 : ℕ) < 5 ∧
    fetchAllMaterials catPages "X:Y" 2 "t" 5 = FetchAll.ok [matRail, matCable] 2 := by
  refine ⟨by norm_num, ?_⟩
  have h := c4_fetch_all_pagination catPages "X:Y" "t" 2
    (fun i => if i = 0 then [matRail, matCable] else []) 1 5
    (fun i hi => by interval_cases i <;> rfl)
    (fun i hi => by interval_cases i <;> rfl)
    (by norm_num)
    (by norm_num)
  rw [h]
  decide

/-- Failure unrolling of the fetch-all loop: full successful pages up
to the first `{success:false}` page make the loop rethrow that first
error. -/
lemma fetchAllAux_fail (cat : Catalog) (c tok : String) (n : ℕ)
    (pages : ℕ → List Material) (e : String) :
    ∀ (k start fuel : ℕ),
      (∀ i, i < k → cat.getMaterials c (start + i) n tok = StoreReply.ok (pages (start + i)) ∧
        (pages (start + i)).length = n) →
      cat.getMaterials c (start + k) n tok = StoreReply.notOk (some e) →
      e ≠ "" →
      k < fuel →
      fetchAllMaterialsAux cat c n tok fuel start = FetchAll.thrown e
  | 0, start, fuel, _, hfail, he, hfuel => by
      cases fuel with
      | zero => omega
      | succ f =>
          simp only [Nat.add_zero] at hfail
          simp [fetchAllMaterialsAux, hfail, errorOr, he]
  | (k + 1), start, fuel, hok, hfail, he, hfuel => by
      cases fuel with
      | zero => omega
      | succ f =>
          obtain ⟨h0, hlen0⟩ := hok 0 (Nat.succ_pos k)
          simp only [Nat.add_zero] at h0 hlen0
          have ih := fetchAllAux_fail cat c tok n pages e k (start + 1) f
            (fun i hi => by
              have := hok (i + 1) (by omega)
              simpa [Nat.add_assoc, Nat.add_comm 1 i] using this)
            (by
              have := hfail
              simpa [Nat.add_assoc, Nat.add_comm 1 k] using this)
            he
            (by omega)
          simp [fetchAllMaterialsAux, h0, hlen0, ih]

/-- Entry-point wiring: a supported dispatch with a non-empty token and
tab name yields the response determined by the handler outcome. -/
lemma calculateMaterials_dispatch (cat : Catalog) (tok tn : String) (data : TabData)
    (fuel : ℕ) (htok : tok ≠ "") (htn : tn ≠ "") (out : HandlerOutcome)
    (hd : dispatchTab cat tn data tok fuel = DispatchOut.ran out) :
    calculateMaterials cat ⟨some tok, JAtom.str tn, some data⟩ fuel = handlerToRun out := by
  simp only [calculateMaterials, calculateMaterialsBody, Option.getD, htok, htn, hd,
    if_false]
  cases out <;> simp [handlerToRun]

/-- Dispatch of the main-wall tab. -/
lemma dispatchTab_main_wall (cat : Catalog) (data : TabData) (tok : String) (fuel : ℕ) :
    dispatchTab cat "Главная стена" data tok fuel =
      DispatchOut.ran (wallHandler cat "Главная стена" data data.wallPainting (some "Покраска стен") tok fuel) := by
  simp [dispatchTab]

/-- Dispatch of the `На заезд` tab. -/
lemma dispatchTab_entry (cat : Catalog) (data : TabData) (tok : String) (fuel : ℕ) :
    dispatchTab cat "На заезд" data tok fuel =
      DispatchOut.ran (entryHandler cat data tok fuel) := by
  simp [dispatchTab]

/-- Dispatch of the `Доп. параметр` tab. -/
lemma dispatchTab_extraTab (cat : Catalog) (data : TabData) (tok : String) (fuel : ℕ) :
    dispatchTab cat "Доп. параметр" data tok fuel =
      DispatchOut.ran (extraTabHandler cat data tok) := by
  simp [dispatchTab]

/-- A wall handler whose hidden-materials fetch-all throws propagates
that error after the (already pushed) visible step. -/
lemma wallHandler_hidden_fetch_thrown
    (cat : Catalog) (tabName : String) (data : TabData) (paintingFlag : JAtom)
    (tail : Option String) (tok : String) (fuel : ℕ)
    (L H ml mw p : ℚ) (u : String) (dh : Option JNum) (vm : Material) (e : String)
    (hL : 0 < L) (hH : 0 < H)
    (hlen : data.length = JAtom.num (JNum.fin L))
    (hwid : data.width = JAtom.num (JNum.fin H))
    (hfin : validRef data.finishType = true)
    (hget : cat.getMaterial (refId data.finishType) tok = StoreReply.ok vm)
    (hp : vm.price = some (JNum.fin p)) (hp0 : p ≠ 0)
    (hu : vm.unit = some u) (hu0 : u ≠ "")
    (hdim : vm.dimensions = some ⟨some (JNum.fin ml), some (JNum.fin mw), dh⟩)
    (hml : 0 < ml) (hmw : 0 < mw)
    (hfaT : fetchAllMaterials cat (tabName ++ ":Скрытые") CONFIG.ITEMS_PER_PAGE tok fuel =
      FetchAll.thrown e) :
    wallHandler cat tabName data paintingFlag tail tok fuel = HandlerOutcome.thrown e := by
  simp only [wallHandler, hlen, hwid, hfin, hget, hp, hu, hdim,
    validRoomDim_fin_pos hL, validRoomDim_fin_pos hH,
    jnumTruthy_fin hp0, jstrTruthy_some hu0,
    normalizeDimensions_fins dh (ne_of_gt hml) (ne_of_gt hmw),
    jnum_le0_fin_pos hml, jnum_le0_fin_pos hmw, hfaT,
    Bool.and_true, Bool.true_and, Bool.not_true, Bool.or_self, if_false, if_true]
  simp

/-- An `На заезд` handler whose first category fetch-all throws
propagates that error. -/
lemma entryHandler_list_fetch_thrown (cat : Catalog) (data : TabData) (tok : String)
    (fuel : ℕ) (e : String)
    (hl : data.entryListToggle = JAtom.str "yes")
    (hf : isStrAtom data.entryFastenersToggle = true)
    (ht : isStrAtom data.entryTilingToggle = true)
    (hfaT : fetchAllMaterials cat "На заезд:Список на заезд" CONFIG.ITEMS_PER_PAGE tok fuel =
      FetchAll.thrown e) :
    entryHandler cat data tok fuel = HandlerOutcome.thrown e := by
  simp only [entryHandler, hl, hf, ht, entryToggleLoop, entryToggleStep, hfaT]
  simp [isStrAtom]

/-- Claim C5 (confirmed): if any page fetch of a fetch-all pagination
loop returns an unsuccessful result, the whole calculation terminates
with `{success:false, error}` carrying that first error, and no line
items or accumulated cost are returned — shown for the wall tab's
hidden-materials loop and for the `На заезд` list loop, with the failure
allowed at any page after any number of full pages. -/
theorem c5_fetch_failure_aborts :
    (∀ (cat : Catalog) (data : TabData) (tok : String) (fuel : ℕ)
       (L H ml mw p : ℚ) (u : String) (dh : Option JNum) (vm : Material)
       (pagesH : ℕ → List Material) (k : ℕ) (e : String),
       0 < L → 0 < H →
       data.length = JAtom.num (JNum.fin L) → data.width = JAtom.num (JNum.fin H) →
       validRef data.finishType = true →
       cat.getMaterial (refId data.finishType) tok = StoreReply.ok vm →
       vm.price = some (JNum.fin p) → p ≠ 0 →
       vm.unit = some u → u ≠ "" →
       vm.dimensions = some ⟨some (JNum.fin ml), some (JNum.fin mw), dh⟩ →
       0 < ml → 0 < mw →
       (∀ i, i < k → cat.getMaterials "Главная стена:Скрытые" i CONFIG.ITEMS_PER_PAGE tok =
           StoreReply.ok (pagesH i) ∧ (pagesH i).length = CONFIG.ITEMS_PER_PAGE) →
       cat.getMaterials "Главная стена:Скрытые" k CONFIG.ITEMS_PER_PAGE tok =
         StoreReply.notOk (some e) →
       e ≠ "" → k < fuel → tok ≠ "" →
       calculateMaterials cat ⟨some tok, JAtom.str "Главная стена", some data⟩ fuel =
         RunResult.terminated (CalcResult.failure (some e))) ∧
    (∀ (cat : Catalog) (data : TabData) (tok : String) (fuel : ℕ)
       (pagesH : ℕ → List Material) (k : ℕ) (e : String),
       data.entryListToggle = JAtom.str "yes" →
       isStrAtom data.entryFastenersToggle = true →
       isStrAtom data.entryTilingToggle = true →
       (∀ i, i < k → cat.getMaterials "На заезд:Список на заезд" i CONFIG.ITEMS_PER_PAGE tok =
           StoreReply.ok (pagesH i) ∧ (pagesH i).length = CONFIG.ITEMS_PER_PAGE) →
       cat.getMaterials "На заезд:Список на заезд" k CONFIG.ITEMS_PER_PAGE tok =
         StoreReply.notOk (some e) →
       e ≠ "" → k < fuel → tok ≠ "" →
       calculateMaterials cat ⟨some tok, JAtom.str "На заезд", some data⟩ fuel =
         RunResult.terminated (CalcResult.failure (some e))) := by
  constructor
  · intro cat data tok fuel L H ml mw p u dh vm pagesH k e hL hH hlen hwid hfin hget hp hp0
      hu hu0 hdim hml hmw hpages hfail he hk htok
    have hfaT : fetchAllMaterials cat ("Главная стена" ++ ":Скрытые") CONFIG.ITEMS_PER_PAGE
        tok fuel = FetchAll.thrown e := by
      have h := fetchAllAux_fail cat "Главная стена:Скрытые" tok CONFIG.ITEMS_PER_PAGE
        pagesH e k 0 fuel (fun i hi => by simpa using hpages i hi) (by simpa using hfail) he hk
      simpa [fetchAllMaterials] using h
    have hw := wallHandler_hidden_fetch_thrown cat "Главная стена" data data.wallPainting
      (some "Покраска стен") tok fuel L H ml mw p u dh vm e hL hH hlen hwid hfin hget hp hp0
      hu hu0 hdim hml hmw hfaT
    have hd : dispatchTab cat "Главная стена" data tok fuel = DispatchOut.ran (HandlerOutcome.thrown e) := by
      rw [dispatchTab_main_wall, hw]
    rw [calculateMaterials_dispatch cat tok "Главная стена" data fuel htok (by decide) _ hd]
    simp [handlerToRun, he]
  · intro cat data tok fuel pagesH k e hl hf ht hpages hfail he hk htok
    have hfaT : fetchAllMaterials cat "На заезд:Список на заезд" CONFIG.ITEMS_PER_PAGE
        tok fuel = FetchAll.thrown e := by
      have h := fetchAllAux_fail cat "На заезд:Список на заезд" tok CONFIG.ITEMS_PER_PAGE
        pagesH e k 0 fuel (fun i hi => by simpa using hpages i hi) (by simpa using hfail) he hk
      simpa [fetchAllMaterials] using h
    have hw := entryHandler_list_fetch_thrown cat data tok fuel e hl hf ht hfaT
    have hd : dispatchTab cat "На заезд" data tok fuel = DispatchOut.ran (HandlerOutcome.thrown e) := by
      rw [dispatchTab_entry, hw]
    rw [calculateMaterials_dispatch cat tok "На заезд" data fuel htok (by decide) _ hd]
    simp [handlerToRun, he]

/-- Claim C5 witness: a store whose listings fail with
"Firestore unavailable" makes the whole main-wall calculation return
that error with no results. -/
theorem c5_fetch_failure_aborts_witness :
    ("Firestore unavailable" : String) ≠ "" ∧
    calculateMaterials catFailList
        ⟨some "t", JAtom.str "Главная стена", some wallData⟩ 3 =
      RunResult.terminated (CalcResult.failure (some "Firestore unavailable")) := by
  refine ⟨by decide, ?_⟩
  exact c5_fetch_failure_aborts.1 catFailList wallData "t" 3 3000 2500 600 300 450 "шт."
    none matFinish (fun _ => []) 0 "Firestore unavailable"
    (by norm_num) (by norm_num) rfl rfl (by decide) (by decide) rfl (by norm_num) rfl
    (by decide) rfl (by norm_num) (by norm_num)
    (fun i hi => absurd hi (by omega)) (by decide) (by decide) (by omega) (by decide)

/-- A dispatch that ended in an invoked inherited prototype member pins
`protoInvoke` down on the tab name. -/
lemma dispatchTab_proto_inv (cat : Catalog) (tn : String) (data : TabData)
    (tok : String) (fuel : ℕ) (out : Except String JsRet)
    (hd : dispatchTab cat tn data tok fuel = DispatchOut.proto out) :
    protoInvoke tn = some out := by
  rw [dispatchTab] at hd
  by_cases h1 : tn = "Главная стена"
  · rw [if_pos h1] at hd; exact absurd hd (by simp)
  · rw [if_neg h1] at hd
    by_cases h2 : tn = "Фасадная стена"
    · rw [if_pos h2] at hd; exact absurd hd (by simp)
    · rw [if_neg h2] at hd
      by_cases h3 : tn = "БЛ стена"
      · rw [if_pos h3] at hd; exact absurd hd (by simp)
      · rw [if_neg h3] at hd
        by_cases h4 : tn = "БП стена"
        · rw [if_pos h4] at hd; exact absurd hd (by simp)
        · rw [if_neg h4] at hd
          by_cases h5 : tn = "Потолок"
          · rw [if_pos h5] at hd; exact absurd hd (by simp)
          · rw [if_neg h5] at hd
            by_cases h6 : tn = "Полы"
            · rw [if_pos h6] at hd; exact absurd hd (by simp)
            · rw [if_neg h6] at hd
              by_cases h7 : tn = "На заезд"
              · rw [if_pos h7] at hd; exact absurd hd (by simp)
              · rw [if_neg h7] at hd
                by_cases h8 : tn = "Остекление"
                · rw [if_pos h8] at hd; exact absurd hd (by simp)
                · rw [if_neg h8] at hd
                  by_cases h9 : tn = "Электрика"
                  · rw [if_pos h9] at hd; exact absurd hd (by simp)
                  · rw [if_neg h9] at hd
                    by_cases hA : tn = "Мебель"
                    · rw [if_pos hA] at hd; exact absurd hd (by simp)
                    · rw [if_neg hA] at hd
                      by_cases hB : tn = "Доп. параметр"
                      · rw [if_pos hB] at hd; exact absurd hd (by simp)
                      · rw [if_neg hB] at hd
                        cases hp : protoInvoke tn <;> rw [hp] at hd
                        · exact absurd hd (by simp)
                        · injection hd with h
                          rw [h]

/-- The try body of a request whose tab name is not an inherited
`Object.prototype` member name never returns a raw non-result value. -/
lemma body_not_raw (cat : Catalog) (auth : Option String) (tn : JAtom)
    (d : Option TabData) (fuel : ℕ) (v : JsRet)
    (hproto : ∀ s, tn = JAtom.str s → protoInvoke s = none)
    (hb : calculateMaterialsBody cat ⟨auth, tn, d⟩ fuel = BodyOutcome.returnedRaw v) :
    False := by
  cases tn with
  | str s =>
      cases d with
      | some data =>
          simp only [calculateMaterialsBody] at hb
          by_cases ha : auth.getD "" = ""
          · rw [if_pos ha] at hb; exact absurd hb (by simp)
          · rw [if_neg ha] at hb
            by_cases hs : s = ""
            · rw [if_pos hs] at hb; exact absurd hb (by simp)
            · rw [if_neg hs] at hb
              cases hd : dispatchTab cat s data (auth.getD "") fuel with
              | ran out => rw [hd] at hb; cases out <;> exact absurd hb (by simp)
              | proto out =>
                  have h1 := dispatchTab_proto_inv cat s data (auth.getD "") fuel out hd
                  rw [hproto s rfl] at h1
                  exact absurd h1 (by simp)
              | unsupported => rw [hd] at hb; exact absurd hb (by simp)
      | none =>
          simp only [calculateMaterialsBody] at hb
          split at hb <;> exact absurd hb (by simp)
  | undef =>
      cases d <;>
        (simp only [calculateMaterialsBody] at hb
         split at hb <;> exact absurd hb (by simp))
  | num n =>
      cases d <;>
        (simp only [calculateMaterialsBody] at hb
         split at hb <;> exact absurd hb (by simp))
  | obj b =>
      cases d <;>
        (simp only [calculateMaterialsBody] at hb
         split at hb <;> exact absurd hb (by simp))

/-- Claim C7 counterexample: a request whose `tabName` is
`'toString'` makes the bracket lookup find the inherited
`Object.prototype.toString`; the dispatcher invokes it and the entry
point resolves with the raw string `'[object Object]'` — not a result
object. `'hasOwnProperty'` and `'constructor'` likewise resolve `false`
and a fresh empty object. -/
theorem c7_counterexample :
    isResultObject (calculateMaterials catMain
      ⟨some "t", JAtom.str "toString", some wallData⟩ 5) = false ∧
    calculateMaterials catMain ⟨some "t", JAtom.str "toString", some wallData⟩ 5 =
      RunResult.terminatedRaw (JsRet.str "[object Object]") ∧
    calculateMaterials catMain ⟨some "t", JAtom.str "hasOwnProperty", some wallData⟩ 5 =
      RunResult.terminatedRaw (JsRet.bool false) ∧
    calculateMaterials catMain ⟨some "t", JAtom.str "constructor", some wallData⟩ 5 =
      RunResult.terminatedRaw JsRet.emptyObj :=
  ⟨by decide, by decide, by decide, by decide⟩

/-- Claim C7 (amended): for every request whose `tabName` is not one of
the inherited `Object.prototype` member names, catalog behaviour
(including store error results and thrown errors) and fuel, the entry
point resolves with a result object — success or failure — whenever its
pagination loops terminate; and every error thrown inside the try body
is converted by the catch into
`{success:false, error: error.message || String(error)}` rather than
propagating. -/
theorem c7_always_result_object_amended :
    (∀ (cat : Catalog) (req : CalcRequest) (fuel : ℕ),
       (∀ s, req.tabName = JAtom.str s → protoInvoke s = none) →
       (∃ r, calculateMaterials cat req fuel = RunResult.terminated r) ∨
         calculateMaterials cat req fuel = RunResult.diverged) ∧
    (∀ (cat : Catalog) (req : CalcRequest) (fuel : ℕ) (m : String),
       calculateMaterialsBody cat req fuel = BodyOutcome.thrown m →
       calculateMaterials cat req fuel =
         RunResult.terminated (CalcResult.failure (some (if m = "" then "Error" else m)))) := by
  constructor
  · intro cat req fuel hproto
    obtain ⟨auth, tn, d⟩ := req
    cases hb : calculateMaterialsBody cat ⟨auth, tn, d⟩ fuel with
    | returned r => exact Or.inl ⟨r, by simp [calculateMaterials, hb]⟩
    | returnedRaw v =>
        exact (body_not_raw cat auth tn d fuel v (fun s h => hproto s h) hb).elim
    | thrown m =>
        refine Or.inl ⟨CalcResult.failure (some (if m = "" then "Error" else m)), ?_⟩
        simp [calculateMaterials, hb]
    | outOfFuel => exact Or.inr (by simp [calculateMaterials, hb])
  · intro cat req fuel m h
    simp [calculateMaterials, h]

/-- Claim C7 (amended) witness: a supported tab name is no prototype
member, so the run resolves a result object; the handler's `undefined`
resolution makes the `.success` dereference throw, and the catch turns
it into that failure object. -/
theorem c7_always_result_object_amended_witness :
    ((∃ r, calculateMaterials catNoHidden
        ⟨some "t", JAtom.str "Главная стена", some wallData⟩ 1 =
          RunResult.terminated r) ∨
      calculateMaterials catNoHidden
        ⟨some "t", JAtom.str "Главная стена", some wallData⟩ 1 =
          RunResult.diverged) ∧
    calculateMaterials catNoHidden ⟨some "t", JAtom.str "Главная стена", some wallData⟩ 1 =
      RunResult.terminated (CalcResult.failure
        (some "Cannot read properties of undefined (reading 'success')")) :=
  ⟨c7_always_result_object_amended.1 catNoHidden
      ⟨some "t", JAtom.str "Главная стена", some wallData⟩ 1
      (fun s h => by cases h; decide),
    by
      have h := c7_always_result_object_amended.2 catNoHidden
        ⟨some "t", JAtom.str "Главная стена", some wallData⟩ 1
        "Cannot read properties of undefined (reading 'success')" (by decide)
      simpa using h⟩


/-- Claim C8 (confirmed): a wall/ceiling/floor calculation fails with
the invalid-material-dimensions error when the primary finish material
normalises to non-positive length or width, while a resolved insulation
material (with price and unit) whose own computed area is falsy (zero or
missing) does not fail: its quantity uses the silent fallback
denominator of 1 m², i.e. `ceil(roomArea_m2 * 1.10)`. -/
theorem c8_dims_gate_and_insulation_fallback :
    (∀ (cat : Catalog) (data : TabData) (tok : String) (fuel : ℕ)
       (L H p : ℚ) (u : String) (vm : Material),
       0 < L → 0 < H →
       data.length = JAtom.num (JNum.fin L) → data.width = JAtom.num (JNum.fin H) →
       validRef data.finishType = true →
       cat.getMaterial (refId data.finishType) tok = StoreReply.ok vm →
       vm.price = some (JNum.fin p) → p ≠ 0 →
       vm.unit = some u → u ≠ "" →
       (((normalizeDimensions vm.dimensions).length.le0 ||
         (normalizeDimensions vm.dimensions).width.le0) = true) →
       tok ≠ "" →
       calculateMaterials cat ⟨some tok, JAtom.str "Главная стена", some data⟩ fuel =
         RunResult.terminated (CalcResult.failure
           (some ("Недопустимые размеры материала \"" ++ vm.name ++ "\"")))) ∧
    (∀ (cat : Catalog) (tabName : String) (data : TabData) (paintingFlag : JAtom)
       (tail : Option String) (tok : String) (fuel : ℕ)
       (L H ml mw p ip : ℚ) (u iu si : String) (dh : Option JNum) (vm im : Material),
       0 < L → 0 < H →
       data.length = JAtom.num (JNum.fin L) → data.width = JAtom.num (JNum.fin H) →
       validRef data.finishType = true →
       data.insulationType = JAtom.str si → si ≠ "" →
       data.extraMaterials = JArrVal.undef → paintingFlag = JAtom.undef →
       cat.getMaterial (refId data.finishType) tok = StoreReply.ok vm →
       vm.price = some (JNum.fin p) → p ≠ 0 →
       vm.unit = some u → u ≠ "" →
       vm.dimensions = some ⟨some (JNum.fin ml), some (JNum.fin mw), dh⟩ →
       0 < ml → 0 < mw →
       cat.getMaterial (keyHead si) tok = StoreReply.ok im →
       im.price = some (JNum.fin ip) → ip ≠ 0 →
       im.unit = some iu → iu ≠ "" →
       ((((normalizeDimensions im.dimensions).length.mul
          ((normalizeDimensions im.dimensions).width)).div (JNum.fin 1000000)).truthy = false) →
       (∀ c page n, cat.getMaterials c page n tok = StoreReply.ok []) →
       fuel ≠ 0 →
       wallHandler cat tabName data paintingFlag tail tok fuel =
         HandlerOutcome.completed
           { results := [⟨vm.name,
               JsVal.num (JNum.fin (⌈L * H / 1000000 / (ml * mw / 1000000) * (11/10 : ℚ)⌉ : ℚ)),
               u,
               toFixed2 (JNum.fin
                 ((⌈L * H / 1000000 / (ml * mw / 1000000) * (11/10 : ℚ)⌉ : ℚ) * p)),
               false⟩,
             ⟨im.name,
               JsVal.num (JNum.fin (⌈L * H / 1000000 * (11/10 : ℚ)⌉ : ℚ)),
               iu,
               toFixed2 (JNum.fin ((⌈L * H / 1000000 * (11/10 : ℚ)⌉ : ℚ) * ip)),
               false⟩],
             totalCost :=
               JNum.fin ((⌈L * H / 1000000 / (ml * mw / 1000000) * (11/10 : ℚ)⌉ : ℚ) * p +
                 (⌈L * H / 1000000 * (11/10 : ℚ)⌉ : ℚ) * ip) }) := by
  constructor
  · intro cat data tok fuel L H p u vm hL hH hlen hwid hfin hget hp hp0 hu hu0 hle htok
    have hw : wallHandler cat "Главная стена" data data.wallPainting (some "Покраска стен")
        tok fuel = HandlerOutcome.failed
          (some ("Недопустимые размеры материала \"" ++ vm.name ++ "\"")) := by
      simp only [wallHandler, hlen, hwid, hfin, hget, hp, hu,
        validRoomDim_fin_pos hL, validRoomDim_fin_pos hH,
        jnumTruthy_fin hp0, jstrTruthy_some hu0, hle,
        Bool.and_true, Bool.true_and]
      simp
    have hd : dispatchTab cat "Главная стена" data tok fuel =
        DispatchOut.ran (HandlerOutcome.failed
          (some ("Недопустимые размеры материала \"" ++ vm.name ++ "\""))) := by
      rw [dispatchTab_main_wall, hw]
    rw [calculateMaterials_dispatch cat tok "Главная стена" data fuel htok (by decide) _ hd]
    simp [handlerToRun]
  · intro cat tabName data paintingFlag tail tok fuel L H ml mw p ip u iu si dh vm im
      hL hH hlen hwid hfin hins hsi hextras hpf hget hp hp0 hu hu0 hdim hml hmw
      hgi hip hip0 hiu hiu0 hfb hlist hfuel
    have h1M : (1000000 : ℚ) ≠ 0 := by norm_num
    have hML : ml * mw / 1000000 ≠ 0 := by positivity
    have hWF : CONFIG.WASTE_FACTOR = (11/10 : ℚ) := by
      rw [CONFIG.WASTE_FACTOR, Rat.mkRat_eq_div]; norm_num
    have hfa : fetchAllMaterials cat (tabName ++ ":Скрытые") CONFIG.ITEMS_PER_PAGE tok fuel =
        FetchAll.ok [] 1 :=
      fetchAllMaterials_short (hlist _ 0 _) (by norm_num [CONFIG.ITEMS_PER_PAGE]) hfuel
    have e1 : (JNum.fin (L * H)).div (JNum.fin 1000000) =
        JNum.fin (L * H / 1000000) := jnum_div_fin _ _ h1M
    have e2 : (JNum.fin (ml * mw)).div (JNum.fin 1000000) =
        JNum.fin (ml * mw / 1000000) := jnum_div_fin _ _ h1M
    have e3 : (JNum.fin (L * H / 1000000)).div (JNum.fin (ml * mw / 1000000)) =
        JNum.fin (L * H / 1000000 / (ml * mw / 1000000)) := jnum_div_fin _ _ hML
    have e4 : (JNum.fin (L * H / 1000000)).div (JNum.fin 1) =
        JNum.fin (L * H / 1000000) := by
      rw [jnum_div_fin _ _ one_ne_zero, div_one]
    rcases tail with _ | t <;>
      simp only [wallHandler, processInsulation, hlen, hwid, hfin, hins, hextras, hpf, hget,
        hp, hu, hdim, hgi, hip, hiu, hsi,
        validRoomDim_fin_pos hL, validRoomDim_fin_pos hH,
        jnumTruthy_fin hp0, jstrTruthy_some hu0,
        jnumTruthy_fin hip0, jstrTruthy_some hiu0,
        normalizeDimensions_fins dh (ne_of_gt hml) (ne_of_gt hmw),
        jnum_le0_fin_pos hml, jnum_le0_fin_pos hmw,
        atomNum, priceVal, Option.getD,
        hfa, processHiddenRails_nil, extrasFinish_undef, hfb,
        e1, e2, e3, e4, jnum_mul_fin, jnum_ceil_fin, jnum_add_fin, hWF,
        Bool.and_true, Bool.true_and, Bool.and_self, Bool.not_true, Bool.or_self,
        if_false, if_true, reduceCtorEq, zero_add] <;>
      norm_num

/-- Claim C8 witness: a finish material with missing dimensions makes
the whole main-wall calculation fail with the invalid-dimensions error,
while a dimensionless insulation material on a 3000×2500 mm wall yields
`ceil(7.5 * 1.10) = 9` insulation units. -/
theorem c8_dims_gate_and_insulation_fallback_witness :
    calculateMaterials catNoHidden ⟨some "t", JAtom.str "Главная стена", some wallDataZero⟩ 1 =
      RunResult.terminated (CalcResult.failure
        (some "Недопустимые размеры материала \"Краска\"")) ∧
    wallHandler catNoHidden "Главная стена" wallDataIns JAtom.undef (some "Покраска стен")
        "t" 1 =
      HandlerOutcome.completed
        { results := [⟨"Панель ПВХ", JsVal.num (JNum.fin 46), "шт.", "20700.00", false⟩,
            ⟨"Утеплитель", JsVal.num (JNum.fin 9), "шт.", "1080.00", false⟩],
          totalCost := JNum.fin 21780 } := by
  constructor
  · have h := c8_dims_gate_and_insulation_fallback.1 catNoHidden wallDataZero "t" 1
      3000 2500 90 "л." matZeroDims (by norm_num) (by norm_num) rfl rfl (by decide)
      (by decide) rfl (by norm_num) rfl (by decide) (by decide) (by decide)
    simpa using h
  · have h := c8_dims_gate_and_insulation_fallback.2 catNoHidden "Главная стена" wallDataIns
      JAtom.undef (some "Покраска стен") "t" 1 3000 2500 600 300 450 120 "шт." "шт."
      "m6:Главная стена:Утеплитель" none matFinish matInsulation
      (by norm_num) (by norm_num) rfl rfl (by decide) rfl (by decide) rfl rfl
      (by decide) rfl (by norm_num) rfl (by decide) rfl (by norm_num) (by norm_num)
      (by decide) rfl (by norm_num) rfl (by decide) (by decide)
      (fun _ _ _ => rfl) (by decide)
    rw [h]
    norm_num
    rw [show (⌈(275/6 : ℚ)⌉ : ℤ) = 46 from by norm_num [Int.ceil_eq_iff],
      show (⌈(33/4 : ℚ)⌉ : ℤ) = 9 from by norm_num [Int.ceil_eq_iff]]
    norm_num
    decide

/-- Overlay invariance under dropping invalid entries: processing a
list of entries is identical to processing only the kept ones. -/
lemma processExtraEntries_filter (cat : Catalog) (tok : String) :
    ∀ (entries : List JEntry) (acc : List LineItem) (tc : JNum),
      processExtraEntries cat tok entries acc tc =
        processExtraEntries cat tok (entries.filter jentryKept) acc tc := by
  intro entries
  induction entries with
  | nil => intro acc tc; rfl
  | cons x rest ih =>
      intro acc tc
      cases x with
      | nullish => simp [processExtraEntries, jentryKept, List.filter_cons]
      | entry e =>
          by_cases hv : extraEntryValid e
          · simp only [List.filter_cons, jentryKept, hv, if_true, processExtraEntries, ih]
          · simp only [List.filter_cons, jentryKept, hv, if_false, processExtraEntries, ih,
              Bool.false_eq_true]

/-- Claim C6 (amended, proved): an `extraMaterials` entry whose
`materialKey` is missing, not a string, or empty after trimming, or
whose `quantity` is not a number, is `NaN`, or is `<= 0`, contributes
nothing: the overlay outcome equals that of the entry list with all such
entries removed (so invalid entries add no cost, no result entries, and
are never fatal).  Finiteness is not part of the check: an entry with
quantity `+Infinity` is kept. -/
theorem c6_invalid_extra_entries_dropped (cat : Catalog) (tok : String)
    (entries : List JEntry) :
    processExtraMaterials cat (JArrVal.arr entries) tok =
      processExtraMaterials cat (JArrVal.arr (entries.filter jentryKept)) tok := by
  simp only [processExtraMaterials]
  exact processExtraEntries_filter cat tok entries [] (JNum.fin 0)

/-- Items appended by the shared category loop are never
catalog-hidden. -/
lemma processCategoryMaterials_hidden_excluded :
    ∀ (mats : List Material) (st : CalcState) (it : LineItem),
      it ∈ (processCategoryMaterials mats st).results →
      it ∈ st.results ∨ it.hidden = false := by
  intro mats
  induction mats with
  | nil => intro st it h; exact Or.inl h
  | cons m rest ih =>
      intro st it h
      simp only [processCategoryMaterials] at h
      by_cases hp : jnumTruthy m.price
      · rw [if_pos hp] at h
        rcases ih _ it h with hmem | hhid
        · rcases List.mem_append.mp hmem with hl | hr
          · exact Or.inl hl
          · by_cases hh : m.isHidden
            · simp [hh] at hr
            · simp only [hh, if_false, List.mem_singleton, Bool.false_eq_true] at hr
              subst hr
              exact Or.inr (by simpa using hh)
        · exact Or.inr hhid
      · rw [if_neg hp] at h
        exact ih st it h

/-- The shared category loop costs every priced material (hidden or
not) into the running total. -/
lemma processCategoryMaterials_total :
    ∀ (mats : List Material) (st : CalcState),
      (processCategoryMaterials mats st).totalCost =
        mats.foldl (fun tc m => if jnumTruthy m.price then tc.add (categoryCost m) else tc)
          st.totalCost := by
  intro mats
  induction mats with
  | nil => intro st; rfl
  | cons m rest ih =>
      intro st
      simp only [processCategoryMaterials, List.foldl_cons]
      by_cases hp : jnumTruthy m.price
      · rw [if_pos hp, if_pos hp, ih]
        rfl
      · rw [if_neg hp, if_neg hp, ih]

/-- The rail loop only appends to the results array. -/
lemma processHiddenRails_mono :
    ∀ (L H : JNum) (mats : List Material) (st : CalcState) (it : LineItem),
      it ∈ st.results → it ∈ (processHiddenRails L H mats st).results := by
  intro L H mats
  induction mats with
  | nil => intro st it h; exact h
  | cons m rest ih =>
      intro st it h
      simp only [processHiddenRails]
      by_cases hp : jnumTruthy m.price
      · rw [if_pos hp]
        exact ih _ it (List.mem_append.mpr (Or.inl h))
      · rw [if_neg hp]
        exact ih st it h

/-- Every priced hidden material yields a rail line item flagged
`hidden: true` in the results. -/
lemma processHiddenRails_rail_present :
    ∀ (L H : JNum) (mats : List Material) (st : CalcState) (m : Material),
      m ∈ mats → jnumTruthy m.price = true →
      ∃ it ∈ (processHiddenRails L H mats st).results,
        it.material = m.name ∧ it.hidden = true := by
  intro L H mats
  induction mats with
  | nil => intro st m hm; exact absurd hm (List.not_mem_nil m)
  | cons m0 rest ih =>
      intro st m hm hp
      rcases List.mem_cons.mp hm with rfl | hr
      · simp only [processHiddenRails, if_pos hp]
        refine ⟨_, processHiddenRails_mono L H rest _ _
          (List.mem_append.mpr (Or.inr (List.mem_singleton.mpr rfl))), rfl, rfl⟩
      · simp only [processHiddenRails]
        by_cases hp0 : jnumTruthy m0.price
        · rw [if_pos hp0]
          exact ih _ m hr hp
        · rw [if_neg hp0]
          exact ih st m hr hp

/-- After a handler merges the overlay result, every overlay entry is
in the final results. -/
lemma mergeExtras_mem :
    ∀ (st : CalcState) (extras : List LineItem) (tc : JNum) (it : LineItem),
      it ∈ extras → it ∈ (mergeExtras st extras tc).results := by
  intro st extras tc it h
  simp only [mergeExtras]
  by_cases hh : it.hidden
  · exact List.mem_append.mpr (Or.inr (List.mem_filter.mpr ⟨h, by simp [hh]⟩))
  · exact List.mem_append.mpr (Or.inl (List.mem_append.mpr (Or.inr
      (List.mem_filter.mpr ⟨h, by simp [hh]⟩))))

/-- Claim C3 (amended, proved): (1) every line item the category loops
push carries `hidden = false` — materials with catalog `isHidden = true`
never reach the results array from a category fetch-all; (2) the
category loops nevertheless cost every priced material, hidden or not,
into `totalCost`; (3) every priced hidden (rail) material produces a
line item flagged `hidden: true` that IS present in results; (4) every
extra-materials overlay entry — including those whose material has
`isHidden = true` — ends up in the caller's results after the merge. -/
theorem c3_hidden_flag_filtering_amended :
    (∀ (mats : List Material) (st : CalcState) (it : LineItem),
       it ∈ (processCategoryMaterials mats st).results →
       it ∈ st.results ∨ it.hidden = false) ∧
    (∀ (mats : List Material) (st : CalcState),
       (processCategoryMaterials mats st).totalCost =
         mats.foldl (fun tc m => if jnumTruthy m.price then tc.add (categoryCost m) else tc)
           st.totalCost) ∧
    (∀ (L H : JNum) (mats : List Material) (st : CalcState) (m : Material),
       m ∈ mats → jnumTruthy m.price = true →
       ∃ it ∈ (processHiddenRails L H mats st).results,
         it.material = m.name ∧ it.hidden = true) ∧
    (∀ (st : CalcState) (extras : List LineItem) (tc : JNum) (it : LineItem),
       it ∈ extras → it ∈ (mergeExtras st extras tc).results) :=
  ⟨processCategoryMaterials_hidden_excluded, processCategoryMaterials_total,
    processHiddenRails_rail_present, mergeExtras_mem⟩

theorem c3_hidden_flag_filtering_amended_witness :
    ((⟨"Кабель", JsVal.str "1.00", "м.", "150.00", false⟩ : LineItem) ∈ ([] : List LineItem) ∨
      (⟨"Кабель", JsVal.str "1.00", "м.", "150.00", false⟩ : LineItem).hidden = false) ∧
    (processCategoryMaterials [matHiddenGlue] ⟨[], JNum.fin 0⟩).totalCost =
      [matHiddenGlue].foldl
        (fun tc m => if jnumTruthy m.price then tc.add (categoryCost m) else tc)
        (JNum.fin 0) ∧
    (∃ it ∈ (processHiddenRails (JNum.fin 3000) (JNum.fin 2500) [matRail]
        ⟨[], JNum.fin 0⟩).results, it.material = "Рейка" ∧ it.hidden = true) ∧
    (⟨"Клей", JsVal.str "2.00", "шт.", "400.00", true⟩ : LineItem) ∈
      (mergeExtras ⟨[], JNum.fin 0⟩ [⟨"Клей", JsVal.str "2.00", "шт.", "400.00", true⟩]
        (JNum.fin 400)).results := by
  refine ⟨?_, ?_, ?_, ?_⟩
  · exact c3_hidden_flag_filtering_amended.1 [matCable] ⟨[], JNum.fin 0⟩
      ⟨"Кабель", JsVal.str "1.00", "м.", "150.00", false⟩ (by decide)
  · exact c3_hidden_flag_filtering_amended.2.1 [matHiddenGlue] ⟨[], JNum.fin 0⟩
  · exact c3_hidden_flag_filtering_amended.2.2.1 (JNum.fin 3000) (JNum.fin 2500) [matRail] ⟨[], JNum.fin 0⟩ matRail
      (by decide) (by decide)
  · exact c3_hidden_flag_filtering_amended.2.2.2 ⟨[], JNum.fin 0⟩
      [⟨"Клей", JsVal.str "2.00", "шт.", "400.00", true⟩] (JNum.fin 400)
      ⟨"Клей", JsVal.str "2.00", "шт.", "400.00", true⟩ (by decide)

/-- Adding JS zero is the identity. -/
lemma jnum_add_fin_zero (x : JNum) : x.add (JNum.fin 0) = x := by
  cases x <;> simp [JNum.add, qAdd_eq]

/-- Merging an empty overlay result changes nothing. -/
lemma mergeExtras_nil (st : CalcState) : mergeExtras st [] (JNum.fin 0) = st := by
  cases st
  simp [mergeExtras, jnum_add_fin_zero]

/-- A truthy non-array `extraMaterials` value behaves like an absent
one in the finishing step. -/
lemma extrasFinish_notArray (cat : Catalog) (tok : String) (b : Bool) (st : CalcState) :
    extrasFinish cat tok (JArrVal.notArray b) st = extrasFinish cat tok JArrVal.undef st := by
  cases b <;>
    simp [extrasFinish, JArrVal.truthy, processExtraMaterials, mergeExtras_nil]

/-- Claim C10 (confirmed): (1) the extra-items overlay returns a zero
total and empty result list for any non-array (or absent)
`extraMaterials` value; (2) a wall-tab computation with a non-array
`extraMaterials` behaves exactly as if the field were absent — no extra
items, no extra cost, no failure; (3) the `Доп. параметр` tab alone
rejects a missing, non-array or empty `extraMaterials` with a
`{success:false}` response. -/
theorem c10_non_array_extras :
    (∀ (cat : Catalog) (tok : String) (v : JArrVal),
       (v = JArrVal.undef ∨ ∃ b, v = JArrVal.notArray b) →
       processExtraMaterials cat v tok = ExtraOutcome.ok [] (JNum.fin 0)) ∧
    (∀ (cat : Catalog) (tabName : String) (data : TabData) (paintingFlag : JAtom)
       (tail : Option String) (tok : String) (fuel : ℕ) (b : Bool),
       wallHandler cat tabName { data with extraMaterials := JArrVal.notArray b }
           paintingFlag tail tok fuel =
         wallHandler cat tabName { data with extraMaterials := JArrVal.undef }
           paintingFlag tail tok fuel) ∧
    (∀ (cat : Catalog) (tok : String) (data : TabData) (fuel : ℕ) (v : JArrVal),
       tok ≠ "" →
       (v = JArrVal.undef ∨ (∃ b, v = JArrVal.notArray b) ∨ v = JArrVal.arr []) →
       calculateMaterials cat
           ⟨some tok, JAtom.str "Доп. параметр", some { data with extraMaterials := v }⟩ fuel =
         RunResult.terminated (CalcResult.failure
           (some "Некорректные данные для вкладки \"Доп. параметр\": требуется непустой массив extraMaterials"))) := by
  refine ⟨?_, ?_, ?_⟩
  · intro cat tok v hv
    rcases hv with rfl | ⟨b, rfl⟩ <;> rfl
  · intro cat tabName data paintingFlag tail tok fuel b
    have h : ∀ st, extrasFinish cat tok
        ({ data with extraMaterials := JArrVal.notArray b }).extraMaterials st =
        extrasFinish cat tok
        ({ data with extraMaterials := JArrVal.undef }).extraMaterials st := by
      intro st
      exact extrasFinish_notArray cat tok b st
    simp only [wallHandler, h]
  · intro cat tok data fuel v htok hv
    have hh : extraTabHandler cat { data with extraMaterials := v } tok =
        HandlerOutcome.failed
          (some "Некорректные данные для вкладки \"Доп. параметр\": требуется непустой массив extraMaterials") := by
      rcases hv with rfl | ⟨b, rfl⟩ | rfl <;> rfl
    have hd : dispatchTab cat "Доп. параметр" { data with extraMaterials := v } tok fuel =
        DispatchOut.ran (HandlerOutcome.failed
          (some "Некорректные данные для вкладки \"Доп. параметр\": требуется непустой массив extraMaterials")) := by
      rw [dispatchTab_extraTab, hh]
    rw [calculateMaterials_dispatch cat tok "Доп. параметр" _ fuel htok (by decide) _ hd]
    simp [handlerToRun]

/-- Claim C10 witness: a string-like (truthy non-array) `extraMaterials`
adds nothing to a main-wall run, and the `Доп. параметр` tab rejects
it. -/
theorem c10_non_array_extras_witness :
    processExtraMaterials catMain (JArrVal.notArray true) "t" =
      ExtraOutcome.ok [] (JNum.fin 0) ∧
    wallHandler catMain "Главная стена"
        { wallData with extraMaterials := JArrVal.notArray true }
        JAtom.undef (some "Покраска стен") "t" 2 =
      wallHandler catMain "Главная стена"
        { wallData with extraMaterials := JArrVal.undef }
        JAtom.undef (some "Покраска стен") "t" 2 ∧
    calculateMaterials catMain ⟨some "t", JAtom.str "Доп. параметр",
        some { wallData with extraMaterials := JArrVal.notArray true }⟩ 1 =
      RunResult.terminated (CalcResult.failure
        (some "Некорректные данные для вкладки \"Доп. параметр\": требуется непустой массив extraMaterials")) :=
  ⟨c10_non_array_extras.1 catMain "t" _ (Or.inr ⟨true, rfl⟩),
    c10_non_array_extras.2.1 catMain "Главная стена" wallData JAtom.undef
      (some "Покраска стен") "t" 2 true,
    c10_non_array_extras.2.2 catMain "t" wallData 1 (JArrVal.notArray true) (by decide)
      (Or.inr (Or.inl ⟨true, rfl⟩))⟩

/-- `fetchAllMaterialsAux` only forwards the token to the store: its result is the
same for any two tokens the store does not distinguish. -/
lemma fetchAllAux_token (cat : Catalog) (t1 t2 : String)
    (hgms : ∀ c p n, cat.getMaterials c p n t1 = cat.getMaterials c p n t2) :
    ∀ (fuel page : ℕ) (c : String) (n : ℕ),
      fetchAllMaterialsAux cat c n t1 fuel page = fetchAllMaterialsAux cat c n t2 fuel page
  | 0, _, _, _ => rfl
  | (fuel + 1), page, c, n => by
      simp only [fetchAllMaterialsAux, hgms]
      cases cat.getMaterials c page n t2 with
      | raise m => rfl
      | notOk e => rfl
      | ok ms =>
          by_cases h : ms.length = n
          · simp only [if_pos h, fetchAllAux_token cat t1 t2 hgms fuel (page + 1) c n]
          · simp only [if_neg h]

/-- Token irrelevance for `fetchAllMaterials`. -/
lemma fetchAll_token (cat : Catalog) (t1 t2 : String)
    (hgms : ∀ c p n, cat.getMaterials c p n t1 = cat.getMaterials c p n t2)
    (c : String) (n fuel : ℕ) :
    fetchAllMaterials cat c n t1 fuel = fetchAllMaterials cat c n t2 fuel :=
  fetchAllAux_token cat t1 t2 hgms fuel 0 c n

/-- Token irrelevance for the extras entry loop. -/
lemma processExtraEntries_token (cat : Catalog) (t1 t2 : String)
    (hgm : ∀ id, cat.getMaterial id t1 = cat.getMaterial id t2) :
    ∀ (entries : List JEntry) (acc : List LineItem) (tc : JNum),
      processExtraEntries cat t1 entries acc tc = processExtraEntries cat t2 entries acc tc := by
  intro entries
  induction entries with
  | nil => intro acc tc; rfl
  | cons x rest ih =>
      intro acc tc
      cases x with
      | nullish => rfl
      | entry e => simp only [processExtraEntries, hgm, ih]

/-- Token irrelevance for `processExtraMaterials`. -/
lemma processExtraMaterials_token (cat : Catalog) (t1 t2 : String)
    (hgm : ∀ id, cat.getMaterial id t1 = cat.getMaterial id t2) (v : JArrVal) :
    processExtraMaterials cat v t1 = processExtraMaterials cat v t2 := by
  cases v with
  | arr entries => exact processExtraEntries_token cat t1 t2 hgm entries [] (JNum.fin 0)
  | undef => rfl
  | notArray b => rfl

/-- Token irrelevance for the handlers' shared extras epilogue. -/
lemma extrasFinish_token (cat : Catalog) (t1 t2 : String)
    (hgm : ∀ id, cat.getMaterial id t1 = cat.getMaterial id t2) (v : JArrVal) (st : CalcState) :
    extrasFinish cat t1 v st = extrasFinish cat t2 v st := by
  simp only [extrasFinish, processExtraMaterials_token cat t1 t2 hgm]

/-- Token irrelevance for `processInsulation`. -/
lemma processInsulation_token (cat : Catalog) (t1 t2 : String)
    (hgm : ∀ id, cat.getMaterial id t1 = cat.getMaterial id t2)
    (it : JAtom) (l h : JNum) (st : CalcState) :
    processInsulation cat it l h t1 st = processInsulation cat it l h t2 st := by
  simp only [processInsulation, hgm]

/-- Token irrelevance for the shared wall-tab handler. -/
lemma wallHandler_token (cat : Catalog) (t1 t2 : String)
    (hgm : ∀ id, cat.getMaterial id t1 = cat.getMaterial id t2)
    (hgms : ∀ c p n, cat.getMaterials c p n t1 = cat.getMaterials c p n t2)
    (tabName : String) (data : TabData) (paintingFlag : JAtom) (tail : Option String)
    (fuel : ℕ) :
    wallHandler cat tabName data paintingFlag tail t1 fuel =
      wallHandler cat tabName data paintingFlag tail t2 fuel := by
  simp only [wallHandler, hgm, fetchAll_token cat t1 t2 hgms,
    processInsulation_token cat t1 t2 hgm, extrasFinish_token cat t1 t2 hgm]

/-- Token irrelevance for one toggle step of the `На заезд` handler. -/
lemma entryToggleStep_token (cat : Catalog) (t1 t2 : String)
    (hgms : ∀ c p n, cat.getMaterials c p n t1 = cat.getMaterials c p n t2)
    (fuel : ℕ) (toggle : JAtom) (category : String) (st : CalcState) :
    entryToggleStep cat t1 fuel toggle category st =
      entryToggleStep cat t2 fuel toggle category st := by
  simp only [entryToggleStep, fetchAll_token cat t1 t2 hgms]

/-- Token irrelevance for the `На заезд` toggle loop. -/
lemma entryToggleLoop_token (cat : Catalog) (t1 t2 : String)
    (hgms : ∀ c p n, cat.getMaterials c p n t1 = cat.getMaterials c p n t2) (fuel : ℕ) :
    ∀ (pairs : List (JAtom × String)) (st : CalcState),
      entryToggleLoop cat t1 fuel pairs st = entryToggleLoop cat t2 fuel pairs st := by
  intro pairs
  induction pairs with
  | nil => intro st; rfl
  | cons p rest ih =>
      intro st
      cases p with
      | mk toggle category =>
          simp only [entryToggleLoop, entryToggleStep_token cat t1 t2 hgms, ih]

/-- Token irrelevance for the `На заезд` handler. -/
lemma entryHandler_token (cat : Catalog) (t1 t2 : String)
    (hgm : ∀ id, cat.getMaterial id t1 = cat.getMaterial id t2)
    (hgms : ∀ c p n, cat.getMaterials c p n t1 = cat.getMaterials c p n t2)
    (data : TabData) (fuel : ℕ) :
    entryHandler cat data t1 fuel = entryHandler cat data t2 fuel := by
  simp only [entryHandler, entryToggleLoop_token cat t1 t2 hgms,
    extrasFinish_token cat t1 t2 hgm]

/-- Token irrelevance for the glazing per-id processing. -/
lemma glazingProcessId_token (cat : Catalog) (t1 t2 : String)
    (hgm : ∀ id, cat.getMaterial id t1 = cat.getMaterial id t2)
    (hgms : ∀ c p n, cat.getMaterials c p n t1 = cat.getMaterials c p n t2)
    (fuel : ℕ) (wq : JNum) (isWindow : Bool) (hc materialId : String) (st : CalcState) :
    glazingProcessId cat t1 fuel wq isWindow hc materialId st =
      glazingProcessId cat t2 fuel wq isWindow hc materialId st := by
  simp only [glazingProcessId, hgm, fetchAll_token cat t1 t2 hgms]

/-- Token irrelevance for the glazing options loop. -/
lemma glazingLoop_token (cat : Catalog) (t1 t2 : String)
    (hgm : ∀ id, cat.getMaterial id t1 = cat.getMaterial id t2)
    (hgms : ∀ c p n, cat.getMaterials c p n t1 = cat.getMaterials c p n t2)
    (fuel : ℕ) (wq : JNum) :
    ∀ (opts : List (JAtom × String)) (st : CalcState),
      glazingLoop cat t1 fuel wq opts st = glazingLoop cat t2 fuel wq opts st := by
  intro opts
  induction opts with
  | nil => intro st; rfl
  | cons p rest ih =>
      intro st
      cases p with
      | mk value category =>
          simp only [glazingLoop, fetchAll_token cat t1 t2 hgms,
            glazingProcessId_token cat t1 t2 hgm hgms, ih]

/-- Token irrelevance for the `Остекление` handler. -/
lemma glazingHandler_token (cat : Catalog) (t1 t2 : String)
    (hgm : ∀ id, cat.getMaterial id t1 = cat.getMaterial id t2)
    (hgms : ∀ c p n, cat.getMaterials c p n t1 = cat.getMaterials c p n t2)
    (data : TabData) (fuel : ℕ) :
    glazingHandler cat data t1 fuel = glazingHandler cat data t2 fuel := by
  simp only [glazingHandler, glazingLoop_token cat t1 t2 hgm hgms,
    extrasFinish_token cat t1 t2 hgm]

/-- Token irrelevance for the fixed-items loop shared by the electric and
furniture handlers. -/
lemma fixedItemsLoop_token (cat : Catalog) (t1 t2 : String)
    (hgm : ∀ id, cat.getMaterial id t1 = cat.getMaterial id t2) :
    ∀ (items : List (JAtom × JAtom)) (st : CalcState),
      fixedItemsLoop cat t1 items st = fixedItemsLoop cat t2 items st := by
  intro items
  induction items with
  | nil => intro st; rfl
  | cons p rest ih =>
      intro st
      cases p with
      | mk ty qty => simp only [fixedItemsLoop, hgm, ih]

/-- Token irrelevance for the `Электрика` handler. -/
lemma electricHandler_token (cat : Catalog) (t1 t2 : String)
    (hgm : ∀ id, cat.getMaterial id t1 = cat.getMaterial id t2)
    (data : TabData) :
    electricHandler cat data t1 = electricHandler cat data t2 := by
  simp only [electricHandler, fixedItemsLoop_token cat t1 t2 hgm,
    extrasFinish_token cat t1 t2 hgm]

/-- Token irrelevance for the `Мебель` handler. -/
lemma furnitureHandler_token (cat : Catalog) (t1 t2 : String)
    (hgm : ∀ id, cat.getMaterial id t1 = cat.getMaterial id t2)
    (hgms : ∀ c p n, cat.getMaterials c p n t1 = cat.getMaterials c p n t2)
    (data : TabData) (fuel : ℕ) :
    furnitureHandler cat data t1 fuel = furnitureHandler cat data t2 fuel := by
  simp only [furnitureHandler, fixedItemsLoop_token cat t1 t2 hgm,
    fetchAll_token cat t1 t2 hgms, entryToggleLoop_token cat t1 t2 hgms,
    extrasFinish_token cat t1 t2 hgm]

/-- Token irrelevance for the `Доп. параметр` handler. -/
lemma extraTabHandler_token (cat : Catalog) (t1 t2 : String)
    (hgm : ∀ id, cat.getMaterial id t1 = cat.getMaterial id t2)
    (data : TabData) :
    extraTabHandler cat data t1 = extraTabHandler cat data t2 := by
  simp only [extraTabHandler, processExtraMaterials_token cat t1 t2 hgm]

/-- Token irrelevance for the tab dispatcher. -/
lemma dispatchTab_token (cat : Catalog) (t1 t2 : String)
    (hgm : ∀ id, cat.getMaterial id t1 = cat.getMaterial id t2)
    (hgms : ∀ c p n, cat.getMaterials c p n t1 = cat.getMaterials c p n t2)
    (tn : String) (data : TabData) (fuel : ℕ) :
    dispatchTab cat tn data t1 fuel = dispatchTab cat tn data t2 fuel := by
  simp only [dispatchTab, wallHandler_token cat t1 t2 hgm hgms,
    entryHandler_token cat t1 t2 hgm hgms, glazingHandler_token cat t1 t2 hgm hgms,
    electricHandler_token cat t1 t2 hgm, furnitureHandler_token cat t1 t2 hgm hgms,
    extraTabHandler_token cat t1 t2 hgm]

/-- C9 (amended): for any two requests identical except for the credential
string, if both credentials are non-empty and the catalog's responses do not
depend on the token, the compute entry point produces the same result; the only
branch on the credential value is the up-front `!authToken` emptiness check. -/
theorem c9_token_opacity_amended (cat : Catalog)
    (hgm : ∀ id t t', cat.getMaterial id t = cat.getMaterial id t')
    (hgms : ∀ c p n t t', cat.getMaterials c p n t = cat.getMaterials c p n t')
    (tn : JAtom) (d : Option TabData) (t1 t2 : String)
    (h1 : t1 ≠ "") (h2 : t2 ≠ "") (fuel : ℕ) :
    calculateMaterials cat ⟨some t1, tn, d⟩ fuel =
      calculateMaterials cat ⟨some t2, tn, d⟩ fuel := by
  have hgm2 : ∀ id, cat.getMaterial id t1 = cat.getMaterial id t2 := fun id => hgm id t1 t2
  have hgms2 : ∀ c p n, cat.getMaterials c p n t1 = cat.getMaterials c p n t2 :=
    fun c p n => hgms c p n t1 t2
  simp only [calculateMaterials, calculateMaterialsBody, Option.getD, h1, h2,
    dispatchTab_token cat t1 t2 hgm2 hgms2, if_false]

/-- Concrete instance of the amended C9 theorem: two distinct non-empty tokens
against the token-blind main catalog give identical run results. -/
theorem c9_token_opacity_amended_witness :
    ("alpha" : String) ≠ "" ∧ ("beta" : String) ≠ "" ∧
    calculateMaterials catMain ⟨some "alpha", JAtom.str "Главная стена", some wallData⟩ 5 =
      calculateMaterials catMain ⟨some "beta", JAtom.str "Главная стена", some wallData⟩ 5 :=
  ⟨by decide, by decide,
    c9_token_opacity_amended catMain (fun _ _ _ => rfl) (fun _ _ _ _ _ => rfl)
      (JAtom.str "Главная стена") (some wallData) "alpha" "beta"
      (by decide) (by decide) 5⟩
